import Mathlib

/-! com.unity.webrtc: CudaContext and UnityVideoEncoderFactory

A shallow embedding of

* `Plugin~/WebRTCPlugin/GraphicsDevice/Cuda/CudaContext.cpp`
* `Plugin~/WebRTCPlugin/UnityVideoEncoderFactory.cpp`

The CUDA driver, the graphics APIs, the WebRTC library and the C++ standard
library are outside the repository.  Their entry points are fields of
`Driver`, fields of the graphics-device structures, or explicit function
arguments, so every result below holds for each behaviour they may show.
For `std::sort`, which `GetSupportedFormats` takes as an argument here, the
implementation of the GNU C++ library is transcribed as well (`std.sort`).
State is passed explicitly; every operation also returns the list of driver
calls it issued, in program order.
-/

namespace unity.webrtc

/-! ## CUDA driver API types (cuda.h) -/

/-- The enum `CUresult` of cuda.h, as its integer value. -/
abbrev CUresult := Nat

def CUDA_SUCCESS : CUresult := 0
def CUDA_ERROR_OUT_OF_MEMORY : CUresult := 2
def CUDA_ERROR_NO_DEVICE : CUresult := 100
def CUDA_ERROR_INVALID_DEVICE : CUresult := 101
def CUDA_ERROR_NOT_FOUND : CUresult := 500

/-- The type `CUdevice` of cuda.h is an `int`. -/
abbrev CUdevice := Int

/-- The pointer type `CUcontext`; `0` is `nullptr`. -/
abbrev CUcontext := Nat

/-- A buffer of exactly sixteen bytes: `CUuuid` of cuda.h, and also the
sixteen bytes (`VK_UUID_SIZE`) a `const uint8_t* uuid` argument points to. -/
structure CUuuid where
  bytes : List Nat
  size : bytes.length = 16
  deriving DecidableEq

/-- The value-initialised `CUuuid id = {}`. -/
def CUuuid.zero : CUuuid := ⟨List.replicate 16 0, by decide⟩

/-- The Windows `LUID`, as the object bytes of its two four-byte members. -/
structure LUID where
  LowPart : List Nat
  HighPart : List Nat
  deriving DecidableEq

/-- The C library `memcmp(a, b, n)`: zero when the first `n` bytes agree,
else the sign of the first difference.  Every call in this file passes
buffers at least `n` bytes long; a buffer that ends early compares as the
shorter one (this case is not reached from the code below). -/
def memcmp : List Nat → List Nat → Nat → Int
  | _, _, 0 => 0
  | a :: as, b :: bs, n + 1 => if a = b then memcmp as bs n else (a : Int) - (b : Int)
  | [], [], _ + 1 => 0
  | [], _ :: _, _ + 1 => -1
  | _ :: _, [], _ + 1 => 1

/-- A driver or system call issued by the code, with its input arguments. -/
inductive Call where
  | LoadLibrary
  | FreeLibrary (hModule : Nat)
  | cuInit
  | cuDeviceGetCount
  | cuDeviceGet (ordinal : Int)
  | cuDeviceGetUuid (dev : CUdevice)
  | cuDeviceGetLuid (dev : CUdevice)
  | cuD3D11GetDevice (adapter : Nat)
  | cuCtxCreate (dev : CUdevice)
  | cuCtxDestroy (ctx : CUcontext)
  | cuCtxGetCurrent
  | cuCtxSetCurrent (ctx : CUcontext)
  deriving DecidableEq, Repr

/-- The behaviour of the driver during one operation.  A call with an
output argument answers with its `CUresult` and with the value it stores
through the output pointer, `none` when it stores nothing (the variable
then keeps its old value). -/
structure Driver where
  /-- Answer of `LoadLibrary(TEXT("nvcuda.dll"))`; `0` is `nullptr`. -/
  LoadLibrary : Nat
  cuInit : CUresult
  cuDeviceGetCount : CUresult × Option Int
  cuDeviceGet : Int → CUresult × Option CUdevice
  cuDeviceGetUuid : CUdevice → CUresult × Option CUuuid
  /-- Stores the eight bytes of `luid_` (the node mask is not used). -/
  cuDeviceGetLuid : CUdevice → CUresult × Option (List Nat)
  cuD3D11GetDevice : Nat → CUresult × Option CUdevice
  /-- Answer of `cuCtxCreate(&ctx, 0, dev)` given the contexts now live. -/
  cuCtxCreate : List CUcontext → CUdevice → CUresult × Option CUcontext
  cuCtxGetCurrent : CUresult
  cuCtxSetCurrent : CUcontext → CUresult

/-- Compile-time configuration. -/
structure Build where
  /-- Whether `_WIN32` is defined. -/
  win32 : Bool
  /-- Whether `RTC_DCHECK` is compiled in (`RTC_DCHECK_IS_ON`). -/
  dcheckIsOn : Bool

/-- The explicit state: the member `m_context`, the file-static `s_hModule`,
the context current on the calling thread, and the contexts created by a
successful `cuCtxCreate` and not yet passed to `cuCtxDestroy`. -/
structure World where
  m_context : CUcontext
  s_hModule : Nat
  current : CUcontext
  live : List CUcontext
  deriving DecidableEq, Repr

/-- The constructor `CudaContext::CudaContext()` in a fresh process. -/
def CudaContext.new : World :=
  { m_context := 0, s_hModule := 0, current := 0, live := [] }

/-! ## CudaContext.cpp -/

/-- The function `LoadModule()`. -/
def LoadModule (b : Build) (d : Driver) (w : World) : CUresult × World × List Call :=
  if w.s_hModule = 0 then
    if b.win32 then
      let module := d.LoadLibrary
      if module = 0 then
        (CUDA_ERROR_NOT_FOUND, w, [Call.LoadLibrary])
      else
        (CUDA_SUCCESS, { w with s_hModule := module }, [Call.LoadLibrary])
    else
      (CUDA_SUCCESS, w, [])
  else
    (CUDA_SUCCESS, w, [])

/-- The loop of `CudaContext::FindCudaDevice` from index `i` with `k`
iterations left.  Answers the result, the value stored through `cuDevice`
(when that pointer is not null) and the calls made. -/
def FindCudaDevice.loop (d : Driver) (uuid : CUuuid) :
    Nat → Int → CUdevice → CUuuid → CUresult × Option CUdevice × List Call
  | 0, _, _, _ => (CUDA_ERROR_NO_DEVICE, none, [])
  | k + 1, i, _cuDevice, id =>
    let r1 := d.cuDeviceGet i
    if r1.1 ≠ CUDA_SUCCESS then
      (r1.1, none, [Call.cuDeviceGet i])
    else
      let _cuDevice := r1.2.getD _cuDevice
      let r2 := d.cuDeviceGetUuid _cuDevice
      if r2.1 ≠ CUDA_SUCCESS then
        (r2.1, none, [Call.cuDeviceGet i, Call.cuDeviceGetUuid _cuDevice])
      else
        let id := r2.2.getD id
        if memcmp id.bytes uuid.bytes 16 = 0 then
          (CUDA_SUCCESS, some _cuDevice, [Call.cuDeviceGet i, Call.cuDeviceGetUuid _cuDevice])
        else
          let rest := FindCudaDevice.loop d uuid k (i + 1) _cuDevice id
          (rest.1, rest.2.1, Call.cuDeviceGet i :: Call.cuDeviceGetUuid _cuDevice :: rest.2.2)

/-- The method `CudaContext::FindCudaDevice(uuid, cuDevice)`.  The argument
`cuDevice` is `none` for a null pointer and `some v` for a pointer to a
variable holding `v`; the second component of the answer is that variable
afterwards. -/
def FindCudaDevice (d : Driver) (uuid : CUuuid) (cuDevice : Option CUdevice) :
    CUresult × Option CUdevice × List Call :=
  let r := d.cuDeviceGetCount
  if r.1 ≠ CUDA_SUCCESS then
    (r.1, cuDevice, [Call.cuDeviceGetCount])
  else
    let numDevices : Int := r.2.getD 0
    let out := FindCudaDevice.loop d uuid numDevices.toNat 0 0 CUuuid.zero
    let cuDevice :=
      match out.2.1, cuDevice with
      | some h, some _ => some h
      | _, c => c
    (out.1, cuDevice, Call.cuDeviceGetCount :: out.2.2)

/-- The effect of `cuCtxCreate(&m_context, 0, dev)`: the handle the driver
stores, if any, overwrites `m_context`; a successful call that stores a
handle also makes that context live and current on the calling thread. -/
def cuCtxCreate (d : Driver) (w : World) (dev : CUdevice) : CUresult × World × List Call :=
  let r := d.cuCtxCreate w.live dev
  let w1 : World := { w with m_context := r.2.getD w.m_context }
  let w2 : World :=
    if r.1 = CUDA_SUCCESS then
      match r.2 with
      | some c => { w1 with live := c :: w1.live, current := c }
      | none => w1
    else w1
  (r.1, w2, [Call.cuCtxCreate dev])

/-- The Vulkan physical device, as what
`VulkanUtility::GetPhysicalDeviceUUIDInto(instance, physicalDevice, &deviceUUID)`
yields for it: `none` when the helper answers `false`. -/
structure VkPhysicalDevice where
  GetPhysicalDeviceUUIDInto : Option CUuuid

/-- The loop of `CudaContext::Init(VkInstance, VkPhysicalDevice)`: the two
driver results are not inspected.  Answers `foundDevice`, `cuDevice` and the
calls made. -/
def InitVulkan.loop (d : Driver) (deviceUUID : CUuuid) :
    Nat → Int → CUdevice → CUuuid → Bool × CUdevice × List Call
  | 0, _, cuDevice, _ => (false, cuDevice, [])
  | k + 1, i, cuDevice, id =>
    let cuDevice := (d.cuDeviceGet i).2.getD cuDevice
    let id := (d.cuDeviceGetUuid cuDevice).2.getD id
    if memcmp id.bytes deviceUUID.bytes 16 = 0 then
      (true, cuDevice, [Call.cuDeviceGet i, Call.cuDeviceGetUuid cuDevice])
    else
      let rest := InitVulkan.loop d deviceUUID k (i + 1) cuDevice id
      (rest.1, rest.2.1, Call.cuDeviceGet i :: Call.cuDeviceGetUuid cuDevice :: rest.2.2)

/-- The method `CudaContext::Init(const VkInstance, VkPhysicalDevice)`. -/
def InitVulkan (b : Build) (d : Driver) (physicalDevice : VkPhysicalDevice) (w : World) :
    CUresult × World × List Call :=
  let lm := LoadModule b d w
  if lm.1 ≠ CUDA_SUCCESS then lm
  else
    let w := lm.2.1
    if d.cuInit ≠ CUDA_SUCCESS then
      (d.cuInit, w, lm.2.2 ++ [Call.cuInit])
    else
      let r := d.cuDeviceGetCount
      if r.1 ≠ CUDA_SUCCESS then
        (r.1, w, lm.2.2 ++ [Call.cuInit, Call.cuDeviceGetCount])
      else
        let numDevices : Int := r.2.getD 0
        match physicalDevice.GetPhysicalDeviceUUIDInto with
        | none => (CUDA_ERROR_INVALID_DEVICE, w, lm.2.2 ++ [Call.cuInit, Call.cuDeviceGetCount])
        | some deviceUUID =>
          let scan := InitVulkan.loop d deviceUUID numDevices.toNat 0 0 CUuuid.zero
          if !scan.1 then
            (CUDA_ERROR_NO_DEVICE, w, lm.2.2 ++ [Call.cuInit, Call.cuDeviceGetCount] ++ scan.2.2)
          else
            let c := cuCtxCreate d w scan.2.1
            (c.1, c.2.1, lm.2.2 ++ [Call.cuInit, Call.cuDeviceGetCount] ++ scan.2.2 ++ c.2.2)

/-- The interface `IDXGIDevice`: `GetAdapter` yields the adapter, or `none`
when its `HRESULT` is not `S_OK`. -/
structure IDXGIDevice where
  GetAdapter : Option Nat

/-- The interface `ID3D11Device`: `QueryInterface` yields the DXGI device,
or `none` when its `HRESULT` is not `S_OK`. -/
structure ID3D11Device where
  QueryInterface : Option IDXGIDevice

/-- The method `CudaContext::Init(ID3D11Device*)`. -/
def InitD3D11 (b : Build) (d : Driver) (device : ID3D11Device) (w : World) :
    CUresult × World × List Call :=
  let lm := LoadModule b d w
  if lm.1 ≠ CUDA_SUCCESS then lm
  else
    let w := lm.2.1
    if d.cuInit ≠ CUDA_SUCCESS then
      (d.cuInit, w, lm.2.2 ++ [Call.cuInit])
    else
      let r := d.cuDeviceGetCount
      if r.1 ≠ CUDA_SUCCESS then
        (r.1, w, lm.2.2 ++ [Call.cuInit, Call.cuDeviceGetCount])
      else
        match device.QueryInterface with
        | none => (CUDA_ERROR_NO_DEVICE, w, lm.2.2 ++ [Call.cuInit, Call.cuDeviceGetCount])
        | some pDxgiDevice =>
          match pDxgiDevice.GetAdapter with
          | none => (CUDA_ERROR_NO_DEVICE, w, lm.2.2 ++ [Call.cuInit, Call.cuDeviceGetCount])
          | some pDxgiAdapter =>
            let g := d.cuD3D11GetDevice pDxgiAdapter
            if g.1 ≠ CUDA_SUCCESS then
              (CUDA_ERROR_NO_DEVICE, w,
                lm.2.2 ++ [Call.cuInit, Call.cuDeviceGetCount, Call.cuD3D11GetDevice pDxgiAdapter])
            else
              -- `CUdevice dev;` is not initialised: a successful call that stores
              -- nothing leaves it indeterminate, read here as 0
              let dev := g.2.getD 0
              let c := cuCtxCreate d w dev
              (c.1, c.2.1,
                lm.2.2 ++ [Call.cuInit, Call.cuDeviceGetCount, Call.cuD3D11GetDevice pDxgiAdapter]
                  ++ c.2.2)

/-- The interface `ID3D12Device`, as the answer of `GetAdapterLuid()`. -/
structure ID3D12Device where
  GetAdapterLuid : LUID

/-- The loop of `CudaContext::Init(ID3D12Device*)`.  Answers the failure
code of a driver call (`some r`) or `none`, then `deviceFound`, `cuDevice`
and the calls made. -/
def InitD3D12.loop (d : Driver) (luid : LUID) :
    Nat → Int → CUdevice → Option CUresult × Bool × CUdevice × List Call
  | 0, _, cuDevice => (none, false, cuDevice, [])
  | k + 1, deviceIndex, cuDevice =>
    let r1 := d.cuDeviceGet deviceIndex
    if r1.1 ≠ CUDA_SUCCESS then
      (some r1.1, false, cuDevice, [Call.cuDeviceGet deviceIndex])
    else
      let cuDevice := r1.2.getD cuDevice
      let r2 := d.cuDeviceGetLuid cuDevice
      if r2.1 ≠ CUDA_SUCCESS then
        (some r2.1, false, cuDevice, [Call.cuDeviceGet deviceIndex, Call.cuDeviceGetLuid cuDevice])
      else
        -- `char luid_[8];` is not initialised: a successful call that stores
        -- nothing leaves it indeterminate, read here as eight zero bytes
        let luid_ := r2.2.getD (List.replicate 8 0)
        if memcmp luid.LowPart luid_ 4 = 0 ∧ memcmp luid.HighPart (luid_.drop 4) 4 = 0 then
          (none, true, cuDevice, [Call.cuDeviceGet deviceIndex, Call.cuDeviceGetLuid cuDevice])
        else
          let rest := InitD3D12.loop d luid k (deviceIndex + 1) cuDevice
          (rest.1, rest.2.1, rest.2.2.1,
            Call.cuDeviceGet deviceIndex :: Call.cuDeviceGetLuid cuDevice :: rest.2.2.2)

/-- The method `CudaContext::Init(ID3D12Device*)`. -/
def InitD3D12 (b : Build) (d : Driver) (device : ID3D12Device) (w : World) :
    CUresult × World × List Call :=
  let lm := LoadModule b d w
  if lm.1 ≠ CUDA_SUCCESS then lm
  else
    let w := lm.2.1
    if d.cuInit ≠ CUDA_SUCCESS then
      (d.cuInit, w, lm.2.2 ++ [Call.cuInit])
    else
      let r := d.cuDeviceGetCount
      if r.1 ≠ CUDA_SUCCESS then
        (r.1, w, lm.2.2 ++ [Call.cuInit, Call.cuDeviceGetCount])
      else
        let numDevices : Int := r.2.getD 0
        let luid := device.GetAdapterLuid
        let scan := InitD3D12.loop d luid numDevices.toNat 0 0
        match scan.1 with
        | some result =>
          (result, w, lm.2.2 ++ [Call.cuInit, Call.cuDeviceGetCount] ++ scan.2.2.2)
        | none =>
          if !scan.2.1 then
            (CUDA_ERROR_NO_DEVICE, w, lm.2.2 ++ [Call.cuInit, Call.cuDeviceGetCount] ++ scan.2.2.2)
          else
            let c := cuCtxCreate d w scan.2.2.1
            (c.1, c.2.1, lm.2.2 ++ [Call.cuInit, Call.cuDeviceGetCount] ++ scan.2.2.2 ++ c.2.2)

/-- The method `CudaContext::InitGL()`. -/
def InitGL (b : Build) (d : Driver) (w : World) : CUresult × World × List Call :=
  let lm := LoadModule b d w
  if lm.1 ≠ CUDA_SUCCESS then lm
  else
    let w := lm.2.1
    if d.cuInit ≠ CUDA_SUCCESS then
      (d.cuInit, w, lm.2.2 ++ [Call.cuInit])
    else
      let r := d.cuDeviceGetCount
      if CUDA_SUCCESS ≠ r.1 then
        (r.1, w, lm.2.2 ++ [Call.cuInit, Call.cuDeviceGetCount])
      else
        -- `int numDevices;` is not initialised: a successful call that stores
        -- nothing leaves it indeterminate, read here as 0
        let numDevices : Int := r.2.getD 0
        if numDevices = 0 then
          (CUDA_ERROR_NO_DEVICE, w, lm.2.2 ++ [Call.cuInit, Call.cuDeviceGetCount])
        else
          let cuDevId : Int := 0
          let g := d.cuDeviceGet cuDevId
          if CUDA_SUCCESS ≠ g.1 then
            (g.1, w, lm.2.2 ++ [Call.cuInit, Call.cuDeviceGetCount, Call.cuDeviceGet cuDevId])
          else
            let cuDevice := g.2.getD 0
            let c := cuCtxCreate d w cuDevice
            (c.1, c.2.1,
              lm.2.2 ++ [Call.cuInit, Call.cuDeviceGetCount, Call.cuDeviceGet cuDevId] ++ c.2.2)

/-- How a call that does not return ends: a failed `RTC_DCHECK`, or the
`throw;` with no exception in flight (`std::terminate`). -/
inductive Fatal where
  | dcheck
  | terminate
  deriving DecidableEq, Repr

/-- The method `CudaContext::GetContext()`.  A successful `cuCtxGetCurrent`
stores the context current on the calling thread; a successful `cuCtxSetCurrent`
makes its argument current on the calling thread. -/
def GetContext (b : Build) (d : Driver) (w : World) :
    Except Fatal CUcontext × World × List Call :=
  if b.dcheckIsOn ∧ w.m_context = 0 then
    (.error .dcheck, w, [])
  else if d.cuCtxGetCurrent ≠ CUDA_SUCCESS then
    (.error .terminate, w, [Call.cuCtxGetCurrent])
  else
    let current := w.current
    if w.m_context = current then
      (.ok w.m_context, w, [Call.cuCtxGetCurrent])
    else if d.cuCtxSetCurrent w.m_context ≠ CUDA_SUCCESS then
      (.error .terminate, w, [Call.cuCtxGetCurrent, Call.cuCtxSetCurrent w.m_context])
    else
      (.ok w.m_context, { w with current := w.m_context },
        [Call.cuCtxGetCurrent, Call.cuCtxSetCurrent w.m_context])

/-- The method `CudaContext::Shutdown()`.  The result of `cuCtxDestroy` is
discarded; the context passed to it stops being live and, if it was current
on the calling thread, stops being current. -/
def Shutdown (b : Build) (w : World) : World × List Call :=
  let s1 : World × List Call :=
    if 0 ≠ w.m_context then
      ({ w with
          m_context := 0
          live := w.live.filter (fun c => c ≠ w.m_context)
          current := if w.current = w.m_context then 0 else w.current },
        [Call.cuCtxDestroy w.m_context])
    else (w, [])
  let s2 : World × List Call :=
    if s1.1.s_hModule ≠ 0 then
      ({ s1.1 with s_hModule := 0 },
        if b.win32 then [Call.FreeLibrary s1.1.s_hModule] else [])
    else (s1.1, [])
  (s2.1, s1.2 ++ s2.2)

/-! ## UnityVideoEncoderFactory.cpp -/

/-- The class `webrtc::SdpVideoFormat`: a codec name and its parameter map. -/
structure SdpVideoFormat where
  name : String
  parameters : List (String × String)
  deriving DecidableEq, Repr

/-- The limit `LONG_MAX` of `<climits>` where `long` has 64 bits; where it
has 32 bits the value is `2147483647`.  Only `3 < LONG_MAX` is used. -/
def LONG_MAX : Int := 9223372036854775807

/-- The array `sortOrder` of the lambda `findIndex`. -/
def sortOrder : List String := ["VP8", "VP9", "H264", "AV1X"]

/-- The lambda `findIndex` of `GetSupportedFormats`: the position of the
format name in `sortOrder`, or `LONG_MAX` past its end. -/
def findIndex (format : SdpVideoFormat) : Int :=
  let it := sortOrder.indexOf format.name
  if it = sortOrder.length then LONG_MAX else (it : Int)

/-- The comparator passed to `std::sort`. -/
def compareFormats (x y : SdpVideoFormat) : Bool := decide (findIndex x < findIndex y)

/-- The types of the WebRTC encoder interface, which this file leaves
uninterpreted: the encoder objects and the argument and result types of
their methods. -/
structure EncoderTypes where
  Encoder : Type
  VideoCodec : Type
  Settings : Type
  EncodedImageCallback : Type
  VideoFrame : Type
  FrameTypes : Type
  EncoderInfo : Type
  CodecInfo : Type

/-- The virtual interface `webrtc::VideoEncoder` of the backend encoders:
each method takes the encoder object and answers its return value and the
object afterwards. -/
structure VideoEncoder (T : EncoderTypes) where
  InitEncode : T.Encoder → T.VideoCodec → Int → Nat → Int × T.Encoder
  InitEncodeSettings : T.Encoder → T.VideoCodec → T.Settings → Int × T.Encoder
  RegisterEncodeCompleteCallback : T.Encoder → T.EncodedImageCallback → Int × T.Encoder
  Release : T.Encoder → Int × T.Encoder
  Encode : T.Encoder → T.VideoFrame → T.FrameTypes → Int × T.Encoder
  GetEncoderInfo : T.Encoder → T.EncoderInfo

/-- The interface `webrtc::VideoEncoderFactory` of a backend
(`InternalEncoderFactory`, `NvEncoderFactory`).  `CreateVideoEncoder`
answers `none` for a null `unique_ptr`. -/
structure VideoEncoderFactory (T : EncoderTypes) where
  GetSupportedFormats : List SdpVideoFormat
  QueryVideoEncoder : SdpVideoFormat → T.CodecInfo
  CreateVideoEncoder : SdpVideoFormat → Option T.Encoder

/-- Modelled from the spec: the optional instrumentation collaborator
(`ProfilerMarkerFactory`, declared in ProfilerMarkerFactory.h), which
exposes the creation of a named marker, of a scoped thread context and of a
scoped measurement.  A marker is its descriptor pointer (`0` is `nullptr`);
a thread context is `none` for a null `unique_ptr`. -/
structure ProfilerMarkerFactory where
  CreateMarker : String → Nat
  CreateScopedProfilerThread : String → String → Option Nat

/-- What the profiler records: a scoped measurement opened and closed. -/
inductive ProfilerEvent where
  | scopeBegin (marker : Nat)
  | scopeEnd (marker : Nat)
  deriving DecidableEq, Repr

/-- The class `UnityVideoEncoder`: its four members, and the measurements
recorded so far.  `encoder_` and `profiler_` are `none` when null. -/
structure UnityVideoEncoder (T : EncoderTypes) where
  encoder_ : Option T.Encoder
  profiler_ : Option ProfilerMarkerFactory
  marker_ : Nat
  profilerThread_ : Option Nat
  events : List ProfilerEvent

/-- The constructor `UnityVideoEncoder(encoder, profiler)`. -/
def UnityVideoEncoder.new {T : EncoderTypes} (encoder : Option T.Encoder)
    (profiler : Option ProfilerMarkerFactory) : UnityVideoEncoder T :=
  { encoder_ := encoder
    profiler_ := profiler
    marker_ :=
      match profiler with
      | some p => p.CreateMarker "UnityVideoEncoder.Encode"
      | none => 0
    profilerThread_ := none
    events := [] }

/-- The three-argument `UnityVideoEncoder::InitEncode`.  Like every method
below it answers `none` when it dereferences a null pointer. -/
def UnityVideoEncoder.InitEncode {T : EncoderTypes} (api : VideoEncoder T)
    (self : UnityVideoEncoder T) (codec_settings : T.VideoCodec) (number_of_cores : Int)
    (max_payload_size : Nat) : Option (Int × UnityVideoEncoder T) :=
  match self.encoder_ with
  | none => none
  | some e =>
    let r := api.InitEncode e codec_settings number_of_cores max_payload_size
    some (r.1, { self with encoder_ := some r.2 })

/-- The two-argument `UnityVideoEncoder::InitEncode`. -/
def UnityVideoEncoder.InitEncodeSettings {T : EncoderTypes} (api : VideoEncoder T)
    (self : UnityVideoEncoder T) (codec_settings : T.VideoCodec) (settings : T.Settings) :
    Option (Int × UnityVideoEncoder T) :=
  match self.encoder_ with
  | none => none
  | some e =>
    let r := api.InitEncodeSettings e codec_settings settings
    some (r.1, { self with encoder_ := some r.2 })

/-- The method `UnityVideoEncoder::RegisterEncodeCompleteCallback`. -/
def UnityVideoEncoder.RegisterEncodeCompleteCallback {T : EncoderTypes} (api : VideoEncoder T)
    (self : UnityVideoEncoder T) (callback : T.EncodedImageCallback) :
    Option (Int × UnityVideoEncoder T) :=
  match self.encoder_ with
  | none => none
  | some e =>
    let r := api.RegisterEncodeCompleteCallback e callback
    some (r.1, { self with encoder_ := some r.2 })

/-- The method `UnityVideoEncoder::Release`. -/
def UnityVideoEncoder.Release {T : EncoderTypes} (api : VideoEncoder T)
    (self : UnityVideoEncoder T) : Option (Int × UnityVideoEncoder T) :=
  match self.encoder_ with
  | none => none
  | some e =>
    let r := api.Release e
    some (r.1, { self with encoder_ := some r.2 })

/-- The method `UnityVideoEncoder::GetEncoderInfo` (const). -/
def UnityVideoEncoder.GetEncoderInfo {T : EncoderTypes} (api : VideoEncoder T)
    (self : UnityVideoEncoder T) : Option T.EncoderInfo :=
  match self.encoder_ with
  | none => none
  | some e => some (api.GetEncoderInfo e)

/-- The method `UnityVideoEncoder::Encode`.  The first statement uses
`profiler_` without a null check; the scoped measurement is taken only when
`profiler_` is not null and closes when its block ends. -/
def UnityVideoEncoder.Encode {T : EncoderTypes} (api : VideoEncoder T)
    (self : UnityVideoEncoder T) (frame : T.VideoFrame) (frame_types : T.FrameTypes) :
    Option (Int × UnityVideoEncoder T) :=
  let thread : Option (Option Nat) :=
    if self.profilerThread_.isNone then
      match self.profiler_ with
      | none => none
      | some p => some (p.CreateScopedProfilerThread "WebRTC" "VideoEncoder")
    else some self.profilerThread_
  match thread with
  | none => none
  | some profilerThread =>
    match self.encoder_ with
    | none => none
    | some e =>
      let r := api.Encode e frame frame_types
      let measured : List ProfilerEvent :=
        match self.profiler_ with
        | some _ => [.scopeBegin self.marker_, .scopeEnd self.marker_]
        | none => []
      some (r.1, { self with
        encoder_ := some r.2
        profilerThread_ := profilerThread
        events := self.events ++ measured })

/-- The class `UnityVideoEncoderFactory`: its three members.
`native_encoder_factory_` is `none` when `CreateNativeEncoderFactory`
answered `nullptr`. -/
structure UnityVideoEncoderFactory (T : EncoderTypes) where
  profiler_ : Option ProfilerMarkerFactory
  internal_encoder_factory_ : VideoEncoderFactory T
  native_encoder_factory_ : Option (VideoEncoderFactory T)

/-- The method `UnityVideoEncoderFactory::GetSupportedFormats`, over the
`std::sort` in use. -/
def UnityVideoEncoderFactory.GetSupportedFormats {T : EncoderTypes}
    (stdSort : (SdpVideoFormat → SdpVideoFormat → Bool) →
      List SdpVideoFormat → List SdpVideoFormat)
    (self : UnityVideoEncoderFactory T) : List SdpVideoFormat :=
  let supported_codecs : List SdpVideoFormat := [] ++ self.internal_encoder_factory_.GetSupportedFormats
  let supported_codecs :=
    match self.native_encoder_factory_ with
    | some native => supported_codecs ++ native.GetSupportedFormats
    | none => supported_codecs
  stdSort compareFormats supported_codecs

/-- The two backends. -/
inductive Backend where
  | native
  | internal
  deriving DecidableEq, Repr

/-- The method `UnityVideoEncoderFactory::QueryVideoEncoder`, over
`SdpVideoFormat::IsCodecInList` of WebRTC.  The answer names the backend whose
`QueryVideoEncoder` was invoked and carries what it returned, or is the
failed `RTC_DCHECK`. -/
def UnityVideoEncoderFactory.QueryVideoEncoder {T : EncoderTypes} (b : Build)
    (IsCodecInList : SdpVideoFormat → List SdpVideoFormat → Bool)
    (self : UnityVideoEncoderFactory T) (format : SdpVideoFormat) :
    Except Fatal (Backend × T.CodecInfo) :=
  let fallback : Except Fatal (Backend × T.CodecInfo) :=
    if b.dcheckIsOn ∧ IsCodecInList format self.internal_encoder_factory_.GetSupportedFormats = false then
      .error .dcheck
    else
      .ok (.internal, self.internal_encoder_factory_.QueryVideoEncoder format)
  match self.native_encoder_factory_ with
  | some native =>
    if IsCodecInList format native.GetSupportedFormats then
      .ok (.native, native.QueryVideoEncoder format)
    else fallback
  | none => fallback

/-- What a `std::unique_ptr<webrtc::VideoEncoder>` answered by the factory
holds: the pointer of the backend itself (`none` when null), or a
`UnityVideoEncoder`. -/
inductive CreatedEncoder (T : EncoderTypes) where
  | backend (encoder : Option T.Encoder)
  | unity (wrapper : UnityVideoEncoder T)

/-- The method `UnityVideoEncoderFactory::CreateVideoEncoder`.  The answer
names the backend whose `CreateVideoEncoder` was invoked. -/
def UnityVideoEncoderFactory.CreateVideoEncoder {T : EncoderTypes}
    (IsCodecInList : SdpVideoFormat → List SdpVideoFormat → Bool)
    (self : UnityVideoEncoderFactory T) (format : SdpVideoFormat) :
    Backend × CreatedEncoder T :=
  let fallback : Backend × Option T.Encoder :=
    (.internal, self.internal_encoder_factory_.CreateVideoEncoder format)
  let encoder : Backend × Option T.Encoder :=
    match self.native_encoder_factory_ with
    | some native =>
      if IsCodecInList format native.GetSupportedFormats then
        (.native, native.CreateVideoEncoder format)
      else fallback
    | none => fallback
  match self.profiler_ with
  | none => (encoder.1, .backend encoder.2)
  | some profiler => (encoder.1, .unity (UnityVideoEncoder.new encoder.2 (some profiler)))

/-! ## std::sort of the GNU C++ library

The repository calls `std::sort` and does not contain it.  This section
transcribes the implementation in `bits/stl_algo.h` and `bits/stl_heap.h` of
the GNU C++ library (GCC 12), one definition for each function of those
headers that `std::sort` runs.  A range is a list and an iterator is an
index into it.  Reading through an iterator outside the list is undefined in
C++; here a comparison that would do so answers `false` and a store that
would do so stores nothing.  No such access happens when the comparator is a
strict weak ordering. -/

namespace std

variable {α : Type}

/-- The comparison `comp(*i, *j)` of two iterators. -/
def iterLess (comp : α → α → Bool) (xs : List α) (i j : Nat) : Bool :=
  match xs[i]?, xs[j]? with
  | some a, some b => comp a b
  | _, _ => false

/-- The comparison `comp(val, *j)` of a value and an iterator. -/
def valLess (comp : α → α → Bool) (xs : List α) (val : α) (j : Nat) : Bool :=
  match xs[j]? with
  | some b => comp val b
  | none => false

/-- The comparison `comp(*i, val)` of an iterator and a value. -/
def iterLessVal (comp : α → α → Bool) (xs : List α) (i : Nat) (val : α) : Bool :=
  match xs[i]? with
  | some a => comp a val
  | none => false

/-- The assignment `*i = std::move(*j)`. -/
def moveTo (xs : List α) (i j : Nat) : List α :=
  match xs[j]? with
  | some v => xs.set i v
  | none => xs

/-- The function `std::iter_swap(i, j)`. -/
def iter_swap (xs : List α) (i j : Nat) : List α :=
  match xs[i]?, xs[j]? with
  | some a, some b => (xs.set i b).set j a
  | _, _ => xs

/-- The function `std::__lg(n)`: the position of the highest set bit. -/
def __lg (n : Nat) : Nat := go n n
where
  go : Nat → Nat → Nat
  | 0, _ => 0
  | fuel + 1, n => if 2 ≤ n then go fuel (n / 2) + 1 else 0

/-- The function `std::__move_median_to_first(result, a, b, c, comp)`. -/
def __move_median_to_first (comp : α → α → Bool) (xs : List α) (result a b c : Nat) : List α :=
  if iterLess comp xs a b then
    if iterLess comp xs b c then iter_swap xs result b
    else if iterLess comp xs a c then iter_swap xs result c
    else iter_swap xs result a
  else if iterLess comp xs a c then iter_swap xs result a
  else if iterLess comp xs b c then iter_swap xs result c
  else iter_swap xs result b

/-- The loop `while (comp(first, pivot)) ++first;` with `fuel` steps left;
a comparison past the end of the list is `false`, so the length of the list
is fuel enough. -/
def __unguarded_partition.up (comp : α → α → Bool) (xs : List α) (pivot : Nat) :
    Nat → Nat → Nat
  | 0, first => first
  | fuel + 1, first =>
    if iterLess comp xs first pivot then up comp xs pivot fuel (first + 1) else first

/-- The loop `while (comp(pivot, last)) --last;`. -/
def __unguarded_partition.down (comp : α → α → Bool) (xs : List α) (pivot : Nat) : Nat → Nat
  | 0 => 0
  | last + 1 =>
    if iterLess comp xs pivot (last + 1) then down comp xs pivot last else last + 1

/-- The function `std::__unguarded_partition(first, last, pivot, comp)`,
with `fuel` rounds of its outer loop left; each round lowers `last`, so
`last + 1` rounds are enough.  Answers the range and the cut. -/
def __unguarded_partition (comp : α → α → Bool) (pivot : Nat) :
    Nat → List α → Nat → Nat → List α × Nat
  | 0, xs, first, _ => (xs, first)
  | fuel + 1, xs, first, last =>
    let first := __unguarded_partition.up comp xs pivot (xs.length + 1) first
    let last := last - 1
    let last := __unguarded_partition.down comp xs pivot last
    if ¬ first < last then (xs, first)
    else __unguarded_partition comp pivot fuel (iter_swap xs first last) (first + 1) last

/-- The function `std::__unguarded_partition_pivot(first, last, comp)`. -/
def __unguarded_partition_pivot (comp : α → α → Bool) (xs : List α) (first last : Nat) :
    List α × Nat :=
  let mid := first + (last - first) / 2
  let xs := __move_median_to_first comp xs first (first + 1) mid (last - 1)
  __unguarded_partition comp first (last + 1) xs (first + 1) last

/-- The function `std::__push_heap(first, holeIndex, topIndex, value, comp)`,
with `fuel` steps left; each step lowers `holeIndex`. -/
def __push_heap (comp : α → α → Bool) (first topIndex : Nat) (value : α) :
    Nat → List α → Nat → List α
  | 0, xs, holeIndex => xs.set (first + holeIndex) value
  | fuel + 1, xs, holeIndex =>
    let parent := (holeIndex - 1) / 2
    if topIndex < holeIndex ∧ iterLessVal comp xs (first + parent) value = true then
      __push_heap comp first topIndex value fuel (moveTo xs (first + holeIndex) (first + parent))
        parent
    else xs.set (first + holeIndex) value

/-- The first loop of `std::__adjust_heap`, with `fuel` steps left; each
step raises `secondChild`.  Answers the range, `holeIndex` and
`secondChild`. -/
def __adjust_heap.down (comp : α → α → Bool) (first len : Nat) :
    Nat → List α → Nat → Nat → List α × Nat × Nat
  | 0, xs, holeIndex, secondChild => (xs, holeIndex, secondChild)
  | fuel + 1, xs, holeIndex, secondChild =>
    if secondChild < (len - 1) / 2 then
      let secondChild := 2 * (secondChild + 1)
      let secondChild :=
        if iterLess comp xs (first + secondChild) (first + (secondChild - 1)) then secondChild - 1
        else secondChild
      down comp first len fuel (moveTo xs (first + holeIndex) (first + secondChild))
        secondChild secondChild
    else (xs, holeIndex, secondChild)

/-- The function `std::__adjust_heap(first, holeIndex, len, value, comp)`. -/
def __adjust_heap (comp : α → α → Bool) (xs : List α) (first holeIndex len : Nat) (value : α) :
    List α :=
  let topIndex := holeIndex
  let r := __adjust_heap.down comp first len len xs holeIndex holeIndex
  let xs := r.1
  let holeIndex := r.2.1
  let secondChild := r.2.2
  let r2 : List α × Nat :=
    if len % 2 = 0 ∧ 2 ≤ len ∧ secondChild = (len - 2) / 2 then
      let secondChild := 2 * (secondChild + 1)
      (moveTo xs (first + holeIndex) (first + (secondChild - 1)), secondChild - 1)
    else (xs, holeIndex)
  __push_heap comp first topIndex value (r2.2 + 1) r2.1 r2.2

/-- The function `std::__pop_heap(first, last, result, comp)`. -/
def __pop_heap (comp : α → α → Bool) (xs : List α) (first last result : Nat) : List α :=
  match xs[result]? with
  | some value => __adjust_heap comp (moveTo xs result first) first 0 (last - first) value
  | none => xs

/-- The loop of `std::__make_heap` from `parent` down to 0. -/
def __make_heap.loop (comp : α → α → Bool) (first len : Nat) : Nat → List α → List α
  | parent, xs =>
    let xs :=
      match xs[first + parent]? with
      | some value => __adjust_heap comp xs first parent len value
      | none => xs
    match parent with
    | 0 => xs
    | parent + 1 => loop comp first len parent xs

/-- The function `std::__make_heap(first, last, comp)`. -/
def __make_heap (comp : α → α → Bool) (xs : List α) (first last : Nat) : List α :=
  if last - first < 2 then xs
  else
    let len := last - first
    __make_heap.loop comp first len ((len - 2) / 2) xs

/-- The function `std::__sort_heap(first, last, comp)`, with `fuel` steps
left; each step lowers `last`. -/
def __sort_heap (comp : α → α → Bool) (first : Nat) : Nat → List α → Nat → List α
  | 0, xs, _ => xs
  | fuel + 1, xs, last =>
    if 1 < last - first then
      let last := last - 1
      __sort_heap comp first fuel (__pop_heap comp xs first last last) last
    else xs

/-- The loop of `std::__heap_select` over `i` from `middle`, with `count`
iterators left before `last`. -/
def __heap_select.loop (comp : α → α → Bool) (first middle : Nat) :
    Nat → List α → Nat → List α
  | 0, xs, _ => xs
  | count + 1, xs, i =>
    let xs := if iterLess comp xs i first then __pop_heap comp xs first middle i else xs
    loop comp first middle count xs (i + 1)

/-- The function `std::__heap_select(first, middle, last, comp)`. -/
def __heap_select (comp : α → α → Bool) (xs : List α) (first middle last : Nat) : List α :=
  __heap_select.loop comp first middle (last - middle) (__make_heap comp xs first middle) middle

/-- The function `std::__partial_sort(first, middle, last, comp)`. -/
def __partial_sort (comp : α → α → Bool) (xs : List α) (first middle last : Nat) : List α :=
  __sort_heap comp first (middle - first) (__heap_select comp xs first middle last) middle

/-- The constant `_S_threshold`. -/
def _S_threshold : Nat := 16

/-- The function `std::__introsort_loop(first, last, depth_limit, comp)`.
Every round of its loop lowers `depth_limit`, which the recursion is on. -/
def __introsort_loop (comp : α → α → Bool) : Nat → List α → Nat → Nat → List α
  | depth_limit, xs, first, last =>
    if _S_threshold < last - first then
      match depth_limit with
      | 0 => __partial_sort comp xs first last last
      | depth_limit + 1 =>
        let p := __unguarded_partition_pivot comp xs first last
        let cut := p.2
        let xs := __introsort_loop comp depth_limit p.1 cut last
        __introsort_loop comp depth_limit xs first cut
    else xs

/-- The loop of `std::__unguarded_linear_insert(last, comp)` holding `val`:
elements greater than `val` move up one place until one is not. -/
def __unguarded_linear_insert.loop (comp : α → α → Bool) (val : α) : List α → Nat → List α
  | xs, 0 => xs.set 0 val
  | xs, next + 1 =>
    if valLess comp xs val next then
      loop comp val (moveTo xs (next + 1) next) next
    else xs.set (next + 1) val

/-- The function `std::__unguarded_linear_insert(last, comp)`. -/
def __unguarded_linear_insert (comp : α → α → Bool) (xs : List α) (last : Nat) : List α :=
  match xs[last]? with
  | some val => __unguarded_linear_insert.loop comp val xs last
  | none => xs

/-- The loop of `std::__insertion_sort` over `i`, with `count` iterators
left before `last`.  In the first branch `std::move_backward(first, i, i + 1)`
shifts the elements of `[first, i)` up one place and `*i` goes to `first`. -/
def __insertion_sort.loop (comp : α → α → Bool) (first : Nat) : Nat → List α → Nat → List α
  | 0, xs, _ => xs
  | count + 1, xs, i =>
    let xs :=
      if iterLess comp xs i first then
        match xs[i]? with
        | some val =>
          xs.take first ++ val :: (xs.drop first).take (i - first) ++ xs.drop (i + 1)
        | none => xs
      else __unguarded_linear_insert comp xs i
    loop comp first count xs (i + 1)

/-- The function `std::__insertion_sort(first, last, comp)`. -/
def __insertion_sort (comp : α → α → Bool) (xs : List α) (first last : Nat) : List α :=
  if first = last then xs
  else __insertion_sort.loop comp first (last - (first + 1)) xs (first + 1)

/-- The loop of `std::__unguarded_insertion_sort`. -/
def __unguarded_insertion_sort.loop (comp : α → α → Bool) : Nat → List α → Nat → List α
  | 0, xs, _ => xs
  | count + 1, xs, i => loop comp count (__unguarded_linear_insert comp xs i) (i + 1)

/-- The function `std::__unguarded_insertion_sort(first, last, comp)`. -/
def __unguarded_insertion_sort (comp : α → α → Bool) (xs : List α) (first last : Nat) : List α :=
  __unguarded_insertion_sort.loop comp (last - first) xs first

/-- The function `std::__final_insertion_sort(first, last, comp)`. -/
def __final_insertion_sort (comp : α → α → Bool) (xs : List α) (first last : Nat) : List α :=
  if _S_threshold < last - first then
    __unguarded_insertion_sort comp
      (__insertion_sort comp xs first (first + _S_threshold)) (first + _S_threshold) last
  else __insertion_sort comp xs first last

/-- The function `std::__sort(first, last, comp)`. -/
def __sort (comp : α → α → Bool) (xs : List α) (first last : Nat) : List α :=
  if first ≠ last then
    __final_insertion_sort comp
      (__introsort_loop comp (__lg (last - first) * 2) xs first last) first last
  else xs

/-- The function `std::sort(v.begin(), v.end(), comp)` on a whole vector. -/
def sort (comp : α → α → Bool) (xs : List α) : List α :=
  __sort comp xs 0 xs.length

end std

/-! ## Vocabulary of the properties -/

/-- The driver `d` enumerates the devices `devs` from ordinal `i` on, every
call succeeding: `cuDeviceGet (i + j)` stores the handle of `devs[j]` and
`cuDeviceGetUuid` on that handle stores its identifier. -/
def Enumerates (d : Driver) (devs : List (CUdevice × CUuuid)) (i : Int) : Prop :=
  ∀ (j : Nat) (dev : CUdevice × CUuuid), devs[j]? = some dev →
    d.cuDeviceGet (i + j) = (CUDA_SUCCESS, some dev.1) ∧
      d.cuDeviceGetUuid dev.1 = (CUDA_SUCCESS, some dev.2)

/-- Whether a call is a `cuCtxSetCurrent`. -/
def Call.isSetCurrent : Call → Bool
  | .cuCtxSetCurrent _ => true
  | _ => false

/-- Whether a call is a `cuCtxDestroy`. -/
def Call.isDestroy : Call → Bool
  | .cuCtxDestroy _ => true
  | _ => false

/-- One call on the `CudaContext`, with the driver behaviour and the
graphics device it meets. -/
inductive Op where
  | initVulkan (d : Driver) (physicalDevice : VkPhysicalDevice)
  | initD3D11 (d : Driver) (device : ID3D11Device)
  | initD3D12 (d : Driver) (device : ID3D12Device)
  | initGL (d : Driver)
  | shutdown

/-- Whether the call is one of the `Init` variants. -/
def Op.isInit : Op → Bool
  | .shutdown => false
  | _ => true

/-- The state after one call. -/
def Op.step (b : Build) : Op → World → World
  | .initVulkan d physicalDevice, w => (InitVulkan b d physicalDevice w).2.1
  | .initD3D11 d device, w => (InitD3D11 b d device w).2.1
  | .initD3D12 d device, w => (InitD3D12 b d device w).2.1
  | .initGL d, w => (InitGL b d w).2.1
  | .shutdown, w => (Shutdown b w).1

/-- The state after a sequence of calls, first call first. -/
def run (b : Build) : List Op → World → World
  | [], w => w
  | op :: ops, w => run b ops (op.step b w)

/-- Every live context is the one owned by the `CudaContext`. -/
def NoLeak (w : World) : Prop := ∀ c ∈ w.live, c = w.m_context

/-- The caller guards `Init`: each `Init` of the sequence is issued while
the owned context is empty. -/
def Guarded (b : Build) : List Op → World → Prop
  | [], _ => True
  | op :: ops, w => (op.isInit = true → w.m_context = 0) ∧ Guarded b ops (op.step b w)

/-- The driver contract of `cuCtxCreate`: a successful call stores a handle
that is not null and not already live; a failed call stores nothing. -/
def CreatesFresh (d : Driver) : Prop :=
  ∀ (live : List CUcontext) (dev : CUdevice),
    ((d.cuCtxCreate live dev).1 = CUDA_SUCCESS →
      ∃ c, c ≠ 0 ∧ c ∉ live ∧ (d.cuCtxCreate live dev).2 = some c) ∧
    ((d.cuCtxCreate live dev).1 ≠ CUDA_SUCCESS → (d.cuCtxCreate live dev).2 = none)

/-- The driver met by a call, if it is an `Init`. -/
def Op.driver : Op → Option Driver
  | .initVulkan d _ => some d
  | .initD3D11 d _ => some d
  | .initD3D12 d _ => some d
  | .initGL d => some d
  | .shutdown => none

/-- The shape every `Init` result has: a failure that left the owned context
and the live set alone, or the outcome of `cuCtxCreate` on them. -/
def InitShape (d : Driver) (w : World) (r : CUresult × World × List Call) : Prop :=
  (r.1 ≠ CUDA_SUCCESS ∧ r.2.1.m_context = w.m_context ∧ r.2.1.live = w.live) ∨
  (∃ (v : World) (dev : CUdevice), v.m_context = w.m_context ∧ v.live = w.live ∧
    r.1 = (cuCtxCreate d v dev).1 ∧ r.2.1 = (cuCtxCreate d v dev).2.1)

/-- A comparator is a strict weak ordering (the precondition of
`std::sort`): asymmetric, and its complement is transitive. -/
def StrictWeakOrdering {α : Type} (comp : α → α → Bool) : Prop :=
  (∀ a b, comp a b = true → comp b a = false) ∧
  (∀ a b c, comp b a = false → comp c b = false → comp c a = false)

/-- The contract of `std::sort(first, last, comp)` in the C++ standard: for
a strict weak ordering the range afterwards is a rearrangement of the range
before in which no element is followed by one that compares less.  The
order of equivalent elements is not part of the contract. -/
def StdSortContract (sort : (SdpVideoFormat → SdpVideoFormat → Bool) →
    List SdpVideoFormat → List SdpVideoFormat) : Prop :=
  ∀ comp, StrictWeakOrdering comp → ∀ xs,
    (sort comp xs).Perm xs ∧ (sort comp xs).Pairwise (fun a b => comp b a = false)

/-- The ordering of the specification, written out: the stable sort by preference rank,
as the formats of rank 0 in their original order, then those of rank 1, of
rank 2, of rank 3, and last those outside the table. -/
def stableSortByRank (xs : List SdpVideoFormat) : List SdpVideoFormat :=
  xs.filter (fun f => findIndex f = 0) ++ xs.filter (fun f => findIndex f = 1) ++
    xs.filter (fun f => findIndex f = 2) ++ xs.filter (fun f => findIndex f = 3) ++
    xs.filter (fun f => findIndex f = LONG_MAX)

/-- One step of a stable insertion sort: `v` is put into the ordered list
`P` behind the elements it is not less than and before the elements it is
less than. -/
def insertBehind {α : Type} (comp : α → α → Bool) (P : List α) (v : α) : List α :=
  P.filter (fun a => !comp v a) ++ v :: P.filter (fun a => comp v a)

/-- The stable insertion sort by `comp`: the elements are put in one at a
time, first to last, each behind the elements it is not less than. -/
def stableSortBy {α : Type} (comp : α → α → Bool) (xs : List α) : List α :=
  xs.foldl (insertBehind comp) []

/-! ## Sample inputs -/

/-- The sixteen-byte identifier all of whose bytes are `b`. -/
def CUuuid.ofByte (b : Nat) : CUuuid := ⟨List.replicate 16 b, by simp⟩

/-- A simulated driver over the device list `devs` (handle and identifier of
each device, in enumeration order): every call about an enumerated device
succeeds, and `cuCtxCreate` always succeeds with a handle above every live
one. -/
def simulatedDriver (devs : List (CUdevice × CUuuid)) : Driver where
  LoadLibrary := 1
  cuInit := CUDA_SUCCESS
  cuDeviceGetCount := (CUDA_SUCCESS, some (devs.length : Int))
  cuDeviceGet := fun i =>
    if i < 0 then (CUDA_ERROR_INVALID_DEVICE, none)
    else match devs[i.toNat]? with
      | some dev => (CUDA_SUCCESS, some dev.1)
      | none => (CUDA_ERROR_INVALID_DEVICE, none)
  cuDeviceGetUuid := fun h =>
    match devs.find? (fun dev => dev.1 = h) with
    | some dev => (CUDA_SUCCESS, some dev.2)
    | none => (CUDA_ERROR_INVALID_DEVICE, none)
  cuDeviceGetLuid := fun h =>
    match devs.find? (fun dev => dev.1 = h) with
    | some dev => (CUDA_SUCCESS, some (dev.2.bytes.take 8))
    | none => (CUDA_ERROR_INVALID_DEVICE, none)
  cuD3D11GetDevice := fun adapter =>
    match devs[adapter]? with
    | some dev => (CUDA_SUCCESS, some dev.1)
    | none => (CUDA_ERROR_NO_DEVICE, none)
  cuCtxCreate := fun live _ => (CUDA_SUCCESS, some (live.foldr max 0 + 1))
  cuCtxGetCurrent := CUDA_SUCCESS
  cuCtxSetCurrent := fun _ => CUDA_SUCCESS

/-- Two simulated devices: handle 10 with identifier bytes 1, handle 11 with
identifier bytes 2. -/
def twoDevices : List (CUdevice × CUuuid) := [(10, CUuuid.ofByte 1), (11, CUuuid.ofByte 2)]

/-- The simulated driver over `twoDevices` with one fault: the identifier
fetch (`cuDeviceGetUuid`, `cuDeviceGetLuid`) fails on handle 10, the device
at index 0, with `CUDA_ERROR_INVALID_DEVICE` and stores nothing. -/
def faultyDriver : Driver :=
  { simulatedDriver twoDevices with
    cuDeviceGetUuid := fun h =>
      if h = 10 then (CUDA_ERROR_INVALID_DEVICE, none)
      else (simulatedDriver twoDevices).cuDeviceGetUuid h
    cuDeviceGetLuid := fun h =>
      if h = 10 then (CUDA_ERROR_INVALID_DEVICE, none)
      else (simulatedDriver twoDevices).cuDeviceGetLuid h }

/-- A Linux build with `RTC_DCHECK` compiled in. -/
def linuxDebug : Build := { win32 := false, dcheckIsOn := true }

/-- A Windows build with `RTC_DCHECK` compiled out. -/
def windowsRelease : Build := { win32 := true, dcheckIsOn := false }

/-- The simulated driver over `twoDevices`, except that `cuCtxCreate` on any
device but handle 10 fails with `CUDA_ERROR_OUT_OF_MEMORY` and stores
nothing. -/
def scarceDriver : Driver :=
  { simulatedDriver twoDevices with
    cuCtxCreate := fun live dev =>
      if dev = 10 then (CUDA_SUCCESS, some (live.foldr max 0 + 1))
      else (CUDA_ERROR_OUT_OF_MEMORY, none) }

/-- A guarded call sequence: create on device 10, shut down, create again. -/
def guardedCalls : List Op :=
  [Op.initVulkan scarceDriver ⟨some (CUuuid.ofByte 1)⟩, Op.shutdown,
    Op.initVulkan scarceDriver ⟨some (CUuuid.ofByte 1)⟩]

/-- Uninterpreted encoder types instantiated with numbers. -/
abbrev natTypes : EncoderTypes :=
  { Encoder := Nat, VideoCodec := Nat, Settings := Nat, EncodedImageCallback := Nat,
    VideoFrame := Nat, FrameTypes := Nat, EncoderInfo := Nat, CodecInfo := Nat }

/-- A sample backend with the given catalog: querying answers `tag`, and
creating answers the encoder object `tag` for a format of the catalog and a
null pointer for any other. -/
def sampleBackend (tag : Nat) (formats : List SdpVideoFormat) : VideoEncoderFactory natTypes :=
  { GetSupportedFormats := formats
    QueryVideoEncoder := fun _ => tag
    CreateVideoEncoder := fun format => if format ∈ formats then some tag else none }

/-- A sample factory: software catalog `S` (backend tag 1), optional hardware
catalog `H` (backend tag 2), optional profiler. -/
def sampleFactory (S : List SdpVideoFormat) (H : Option (List SdpVideoFormat))
    (profiler : Option ProfilerMarkerFactory) : UnityVideoEncoderFactory natTypes :=
  { profiler_ := profiler
    internal_encoder_factory_ := sampleBackend 1 S
    native_encoder_factory_ := H.map (sampleBackend 2) }

/-- A format with the given name and no parameters. -/
def fmt (name : String) : SdpVideoFormat := { name := name, parameters := [] }

/-- A stand-in for `SdpVideoFormat::IsCodecInList` of WebRTC on sample
inputs: some format of the list has the same name.  (The test in WebRTC
ignores letter case and also compares some codec parameters; the two agree
on the parameterless sample formats used here.) -/
def sameNameInList (format : SdpVideoFormat) (formats : List SdpVideoFormat) : Bool :=
  formats.any (fun f => f.name = format.name)

/-- Seventeen formats with names outside the preference table, so all of
rank `LONG_MAX`. -/
def seventeenFormats : List SdpVideoFormat :=
  [fmt "F00", fmt "F01", fmt "F02", fmt "F03", fmt "F04", fmt "F05", fmt "F06", fmt "F07",
    fmt "F08", fmt "F09", fmt "F10", fmt "F11", fmt "F12", fmt "F13", fmt "F14", fmt "F15",
    fmt "F16"]

/-- A sample profiler: marker descriptor 7, thread context 9. -/
def sampleProfiler : ProfilerMarkerFactory :=
  { CreateMarker := fun _ => 7
    CreateScopedProfilerThread := fun _ _ => some 9 }

/-- A sample encoder implementation on numbers: the object counts the calls
made on it, and each method answers a value computed from the count and its
arguments. -/
def countingEncoder : VideoEncoder natTypes :=
  { InitEncode := fun (e codec : Nat) (cores : Int) (payload : Nat) =>
      ((e : Int) + codec + cores + payload, e + 1)
    InitEncodeSettings := fun (e codec settings : Nat) => ((e : Int) + codec + settings, e + 1)
    RegisterEncodeCompleteCallback := fun (e callback : Nat) => ((e : Int) + callback, e + 1)
    Release := fun (e : Nat) => ((e : Int), e + 1)
    Encode := fun (e frame types : Nat) => ((e : Int) + frame + types, e + 1)
    GetEncoderInfo := fun (e : Nat) => e }

/-! ## Lemmas on the device scan -/

theorem memcmp_eq_zero_iff (n : Nat) :
    ∀ a b : List Nat, a.length = n → b.length = n → (memcmp a b n = 0 ↔ a = b) := by
  induction n with
  | zero =>
    intro a b ha hb
    rw [List.length_eq_zero] at ha hb
    subst ha; subst hb
    simp [memcmp]
  | succ n ih =>
    intro a b ha hb
    match a, b, ha, hb with
    | x :: as, y :: bs, ha, hb =>
      simp only [List.length_cons, Nat.add_right_cancel_iff] at ha hb
      by_cases hxy : x = y
      · subst hxy
        simp [memcmp, ih as bs ha hb]
      · have hne : (x : Int) - (y : Int) ≠ 0 := by omega
        simp [memcmp, hxy, hne]

theorem memcmp_uuid (a b : CUuuid) : memcmp a.bytes b.bytes 16 = 0 ↔ a = b := by
  rw [memcmp_eq_zero_iff 16 a.bytes b.bytes a.size b.size]
  constructor
  · intro h
    cases a; cases b
    simp only [CUuuid.mk.injEq]
    exact h
  · intro h
    rw [h]

theorem Enumerates.tail {d : Driver} {x : CUdevice × CUuuid} {xs : List (CUdevice × CUuuid)}
    {i : Int} (h : Enumerates d (x :: xs) i) : Enumerates d xs (i + 1) := by
  intro j dev hj
  have := h (j + 1) dev (by simpa using hj)
  have e : i + ((j + 1 : Nat) : Int) = i + 1 + (j : Int) := by push_cast; ring
  rw [e] at this
  exact this

theorem Enumerates.head {d : Driver} {x : CUdevice × CUuuid} {xs : List (CUdevice × CUuuid)}
    {i : Int} (h : Enumerates d (x :: xs) i) :
    d.cuDeviceGet i = (CUDA_SUCCESS, some x.1) ∧
      d.cuDeviceGetUuid x.1 = (CUDA_SUCCESS, some x.2) := by
  have := h 0 x (by simp)
  simpa using this

theorem FindCudaDevice.loop_found (d : Driver) (uuid : CUuuid) :
    ∀ (devs : List (CUdevice × CUuuid)) (i : Int) (c : CUdevice) (id : CUuuid)
      (m : Nat) (dev : CUdevice × CUuuid),
      Enumerates d devs i → devs[m]? = some dev → dev.2 = uuid →
      (∀ (j : Nat) (dev1 : CUdevice × CUuuid), j < m → devs[j]? = some dev1 → dev1.2 ≠ uuid) →
      (FindCudaDevice.loop d uuid devs.length i c id).1 = CUDA_SUCCESS ∧
        (FindCudaDevice.loop d uuid devs.length i c id).2.1 = some dev.1 := by
  intro devs
  induction devs with
  | nil => intro i c id m dev _ hm; simp at hm
  | cons x xs ih =>
    intro i c id m dev hen hm hdev hlow
    obtain ⟨h1, h2⟩ := hen.head
    cases m with
    | zero =>
      simp only [List.getElem?_cons_zero, Option.some.injEq] at hm
      subst hm
      have hz : memcmp x.2.bytes uuid.bytes 16 = 0 := (memcmp_uuid _ _).2 hdev
      simp [FindCudaDevice.loop, h1, h2, hz]
    | succ m =>
      have hx : x.2 ≠ uuid := hlow 0 x (Nat.succ_pos m) (by simp)
      have hz : ¬ memcmp x.2.bytes uuid.bytes 16 = 0 := fun h => hx ((memcmp_uuid _ _).1 h)
      have hrec := ih (i + 1) x.1 x.2 m dev hen.tail (by simpa using hm) hdev
        (fun j dev1 hj hj1 => hlow (j + 1) dev1 (Nat.succ_lt_succ hj) (by simpa using hj1))
      simp only [FindCudaDevice.loop, List.length_cons, h1, h2, hz, Option.getD_some,
        ne_eq, not_true_eq_false, if_false]
      exact hrec

theorem FindCudaDevice.loop_absent (d : Driver) (uuid : CUuuid) :
    ∀ (devs : List (CUdevice × CUuuid)) (i : Int) (c : CUdevice) (id : CUuuid),
      Enumerates d devs i →
      (∀ (j : Nat) (dev1 : CUdevice × CUuuid), devs[j]? = some dev1 → dev1.2 ≠ uuid) →
      (FindCudaDevice.loop d uuid devs.length i c id).1 = CUDA_ERROR_NO_DEVICE ∧
        (FindCudaDevice.loop d uuid devs.length i c id).2.1 = none := by
  intro devs
  induction devs with
  | nil => intro i c id _ _; simp [FindCudaDevice.loop]
  | cons x xs ih =>
    intro i c id hen hall
    obtain ⟨h1, h2⟩ := hen.head
    have hx : x.2 ≠ uuid := hall 0 x (by simp)
    have hz : ¬ memcmp x.2.bytes uuid.bytes 16 = 0 := fun h => hx ((memcmp_uuid _ _).1 h)
    have hrec := ih (i + 1) x.1 x.2 hen.tail
      (fun j dev1 hj1 => hall (j + 1) dev1 (by simpa using hj1))
    simp only [FindCudaDevice.loop, List.length_cons, h1, h2, hz, Option.getD_some,
      ne_eq, not_true_eq_false, if_false]
    exact hrec


theorem twoDevices_enumerates : Enumerates (simulatedDriver twoDevices) twoDevices 0 := by
  intro j dev hj
  rcases j with _ | _ | j
  · simp [twoDevices] at hj
    subst hj
    exact ⟨by decide, by decide⟩
  · simp [twoDevices] at hj
    subst hj
    exact ⟨by decide, by decide⟩
  · simp [twoDevices] at hj

/-- C1: over a simulated device list `devs` on which `cuDeviceGetCount`,
`cuDeviceGet` and `cuDeviceGetUuid` all succeed, `FindCudaDevice` returns
`CUDA_SUCCESS` and stores the handle of the device at the lowest index whose
sixteen identifier bytes equal the argument (through a null `cuDevice`
pointer nothing can be stored); it returns `CUDA_SUCCESS` as soon as some
enumerated device has those bytes; and when no enumerated device has them it
returns `CUDA_ERROR_NO_DEVICE` and leaves the output as it was. -/
theorem FindCudaDevice_first_exact_match (d : Driver) (devs : List (CUdevice × CUuuid))
    (uuid : CUuuid) (cuDevice : Option CUdevice)
    (hcount : d.cuDeviceGetCount = (CUDA_SUCCESS, some (devs.length : Int)))
    (henum : Enumerates d devs 0) :
    (∀ (m : Nat) (dev : CUdevice × CUuuid), devs[m]? = some dev → dev.2.bytes = uuid.bytes →
      (∀ (j : Nat) (dev1 : CUdevice × CUuuid),
        j < m → devs[j]? = some dev1 → dev1.2.bytes ≠ uuid.bytes) →
      (FindCudaDevice d uuid cuDevice).1 = CUDA_SUCCESS ∧
        (FindCudaDevice d uuid cuDevice).2.1 = cuDevice.map (fun _ => dev.1)) ∧
    ((∃ (m : Nat) (dev : CUdevice × CUuuid), devs[m]? = some dev ∧ dev.2.bytes = uuid.bytes) →
      (FindCudaDevice d uuid cuDevice).1 = CUDA_SUCCESS) ∧
    ((∀ (j : Nat) (dev1 : CUdevice × CUuuid), devs[j]? = some dev1 → dev1.2.bytes ≠ uuid.bytes) →
      (FindCudaDevice d uuid cuDevice).1 = CUDA_ERROR_NO_DEVICE ∧
        (FindCudaDevice d uuid cuDevice).2.1 = cuDevice) := by
  have hbytes : ∀ a b : CUuuid, a.bytes = b.bytes ↔ a = b := fun a b =>
    (memcmp_eq_zero_iff 16 a.bytes b.bytes a.size b.size).symm.trans (memcmp_uuid a b)
  have found : ∀ (m : Nat) (dev : CUdevice × CUuuid), devs[m]? = some dev →
      dev.2.bytes = uuid.bytes →
      (∀ (j : Nat) (dev1 : CUdevice × CUuuid),
        j < m → devs[j]? = some dev1 → dev1.2.bytes ≠ uuid.bytes) →
      (FindCudaDevice d uuid cuDevice).1 = CUDA_SUCCESS ∧
        (FindCudaDevice d uuid cuDevice).2.1 = cuDevice.map (fun _ => dev.1) := by
    intro m dev hm hdev hlow
    obtain ⟨h1, h2⟩ := FindCudaDevice.loop_found d uuid devs 0 0 CUuuid.zero m dev henum hm
      ((hbytes _ _).1 hdev) (fun j dev1 hj hj1 h => hlow j dev1 hj hj1 ((hbytes _ _).2 h))
    cases cuDevice <;> simp [FindCudaDevice, hcount, h1, h2]
  refine ⟨found, ?_, ?_⟩
  · intro hex
    classical
    have hex2 : ∃ m, ∃ dev : CUdevice × CUuuid, devs[m]? = some dev ∧ dev.2.bytes = uuid.bytes :=
      hex
    obtain ⟨dev, hm, hdev⟩ := Nat.find_spec hex2
    refine (found (Nat.find hex2) dev hm hdev ?_).1
    intro j dev1 hj hj1 h
    exact Nat.find_min hex2 hj ⟨dev1, hj1, h⟩
  · intro hall
    obtain ⟨h1, h2⟩ := FindCudaDevice.loop_absent d uuid devs 0 0 CUuuid.zero henum
      (fun j dev1 hj1 h => hall j dev1 hj1 ((hbytes _ _).2 h))
    cases cuDevice <;> simp [FindCudaDevice, hcount, h1, h2]

/-- Witness for C1 on two simulated devices: the identifier of the second is
resolved to handle 11, an absent identifier to `CUDA_ERROR_NO_DEVICE`. -/
theorem FindCudaDevice_first_exact_match_witness :
    (simulatedDriver twoDevices).cuDeviceGetCount
        = (CUDA_SUCCESS, some (twoDevices.length : Int)) ∧
      Enumerates (simulatedDriver twoDevices) twoDevices 0 ∧
      ((FindCudaDevice (simulatedDriver twoDevices) (CUuuid.ofByte 2) (some 0)).1 = CUDA_SUCCESS ∧
        (FindCudaDevice (simulatedDriver twoDevices) (CUuuid.ofByte 2) (some 0)).2.1
          = some 11) ∧
      ((FindCudaDevice (simulatedDriver twoDevices) (CUuuid.ofByte 3) (some 0)).1
          = CUDA_ERROR_NO_DEVICE ∧
        (FindCudaDevice (simulatedDriver twoDevices) (CUuuid.ofByte 3) (some 0)).2.1 = some 0) :=
  ⟨rfl, twoDevices_enumerates,
    (FindCudaDevice_first_exact_match (simulatedDriver twoDevices) twoDevices (CUuuid.ofByte 2)
      (some 0) rfl twoDevices_enumerates).1 1 (11, CUuuid.ofByte 2) rfl rfl
      (by
        intro j dev1 hj hj1
        have hj0 : j = 0 := by omega
        subst hj0
        simp [twoDevices] at hj1
        subst hj1
        decide),
    (FindCudaDevice_first_exact_match (simulatedDriver twoDevices) twoDevices (CUuuid.ofByte 3)
      (some 0) rfl twoDevices_enumerates).2.2
      (by
        intro j dev1 hj1
        rcases j with _ | _ | j
        · simp [twoDevices] at hj1
          subst hj1
          decide
        · simp [twoDevices] at hj1
          subst hj1
          decide
        · simp [twoDevices] at hj1)⟩

/-- C4: the driver `faultyDriver` fails the identifier fetch at index 0
and would match at index 1.  `FindCudaDevice` and `Init(ID3D12Device*)`
return the failure code after querying index 0 only and create no context;
`Init(VkInstance, VkPhysicalDevice)` goes on to index 1, creates a context
there and returns `CUDA_SUCCESS`. -/
theorem InitVulkan_continues_after_enumeration_failure :
    (faultyDriver.cuDeviceGet 0 = (CUDA_SUCCESS, some 10) ∧
      faultyDriver.cuDeviceGetUuid 10 = (CUDA_ERROR_INVALID_DEVICE, none)) ∧
    FindCudaDevice faultyDriver (CUuuid.ofByte 2) (some 0)
      = (CUDA_ERROR_INVALID_DEVICE, some 0,
          [Call.cuDeviceGetCount, Call.cuDeviceGet 0, Call.cuDeviceGetUuid 10]) ∧
    InitD3D12 windowsRelease faultyDriver ⟨⟨[2, 2, 2, 2], [2, 2, 2, 2]⟩⟩ CudaContext.new
      = (CUDA_ERROR_INVALID_DEVICE, { CudaContext.new with s_hModule := 1 },
          [Call.LoadLibrary, Call.cuInit, Call.cuDeviceGetCount, Call.cuDeviceGet 0,
            Call.cuDeviceGetLuid 10]) ∧
    InitVulkan linuxDebug faultyDriver ⟨some (CUuuid.ofByte 2)⟩ CudaContext.new
      = (CUDA_SUCCESS, { m_context := 1, s_hModule := 0, current := 1, live := [1] },
          [Call.cuInit, Call.cuDeviceGetCount, Call.cuDeviceGet 0, Call.cuDeviceGetUuid 10,
            Call.cuDeviceGet 1, Call.cuDeviceGetUuid 11, Call.cuCtxCreate 11]) := by
  refine ⟨⟨by decide, by decide⟩, by decide, by decide, by decide⟩

/-- C6: in the Active state with the driver calls succeeding, two
`GetContext` calls in a row on one thread both return the owned handle, the
owned context is current after the first, the second issues only
`cuCtxGetCurrent`, and the two together issue `cuCtxSetCurrent` once if the
owned context was not current before and not at all if it was. -/
theorem GetContext_twice_sets_current_at_most_once (b : Build) (d : Driver) (w : World)
    (hactive : w.m_context ≠ 0)
    (hget : d.cuCtxGetCurrent = CUDA_SUCCESS)
    (hset : d.cuCtxSetCurrent w.m_context = CUDA_SUCCESS) :
    (GetContext b d w).1 = .ok w.m_context ∧
    (GetContext b d w).2.1.current = w.m_context ∧
    (GetContext b d w).2.1.m_context = w.m_context ∧
    (GetContext b d (GetContext b d w).2.1).1 = .ok w.m_context ∧
    (GetContext b d (GetContext b d w).2.1).2.2 = [Call.cuCtxGetCurrent] ∧
    (((GetContext b d w).2.2 ++ (GetContext b d (GetContext b d w).2.1).2.2).filter
        Call.isSetCurrent).length
      = (if w.m_context = w.current then 0 else 1) := by
  have hd : ¬ ((b.dcheckIsOn = true) ∧ w.m_context = 0) := fun h => hactive h.2
  by_cases hc : w.m_context = w.current
  · simp [GetContext, hd, hget, hc, Call.isSetCurrent]
    simp [← hc, hactive]
  · simp [GetContext, hd, hget, hset, hc, Call.isSetCurrent, hactive]

/-- Witness for C6: owned context 5, no context current on the thread. -/
theorem GetContext_twice_sets_current_at_most_once_witness :
    (5 : CUcontext) ≠ 0 ∧
    (simulatedDriver twoDevices).cuCtxGetCurrent = CUDA_SUCCESS ∧
    (simulatedDriver twoDevices).cuCtxSetCurrent 5 = CUDA_SUCCESS ∧
    (((GetContext linuxDebug (simulatedDriver twoDevices)
          { m_context := 5, s_hModule := 0, current := 0, live := [5] }).2.2 ++
        (GetContext linuxDebug (simulatedDriver twoDevices)
          (GetContext linuxDebug (simulatedDriver twoDevices)
            { m_context := 5, s_hModule := 0, current := 0, live := [5] }).2.1).2.2).filter
        Call.isSetCurrent).length = 1 :=
  ⟨by decide, rfl, rfl,
    (GetContext_twice_sets_current_at_most_once linuxDebug (simulatedDriver twoDevices)
      { m_context := 5, s_hModule := 0, current := 0, live := [5] }
      (by decide) rfl rfl).2.2.2.2.2⟩

/-- C7: from every state `Shutdown` leaves the owned context empty and the
module handle not loaded; a second `Shutdown`, and a `Shutdown` when nothing
was created or loaded, issues no call and leaves the state unchanged; over
`Shutdown; Shutdown` the `cuCtxDestroy` calls are exactly one on the owned
context if there was one, and none otherwise. -/
theorem Shutdown_idempotent (b : Build) (w : World) :
    (Shutdown b w).1.m_context = 0 ∧
    (Shutdown b w).1.s_hModule = 0 ∧
    Shutdown b (Shutdown b w).1 = ((Shutdown b w).1, []) ∧
    Shutdown b { w with m_context := 0, s_hModule := 0 }
      = ({ w with m_context := 0, s_hModule := 0 }, []) ∧
    ((Shutdown b w).2 ++ (Shutdown b (Shutdown b w).1).2).filter Call.isDestroy
      = (if w.m_context = 0 then [] else [Call.cuCtxDestroy w.m_context]) := by
  have h1 : (Shutdown b w).1.m_context = 0 := by
    by_cases hm : w.m_context = 0 <;> by_cases hs : w.s_hModule = 0 <;>
      simp [Shutdown, hm, hs, Ne.symm]
  have h2 : (Shutdown b w).1.s_hModule = 0 := by
    by_cases hm : w.m_context = 0 <;> by_cases hs : w.s_hModule = 0 <;>
      simp [Shutdown, hm, hs, Ne.symm]
  have h3 : ∀ v : World, v.m_context = 0 → v.s_hModule = 0 → Shutdown b v = (v, []) := by
    intro v hm hs
    simp [Shutdown, hm, hs]
  refine ⟨h1, h2, h3 _ h1 h2, h3 _ rfl rfl, ?_⟩
  rw [h3 _ h1 h2]
  by_cases hm : w.m_context = 0 <;> by_cases hs : w.s_hModule = 0 <;>
    cases hb : b.win32 <;> simp [Shutdown, hm, hs, hb, Ne.symm, Call.isDestroy]

theorem LoadModule_m_context (b : Build) (d : Driver) (w : World) :
    (LoadModule b d w).2.1.m_context = w.m_context ∧
      (LoadModule b d w).2.1.live = w.live := by
  unfold LoadModule
  dsimp only
  split_ifs <;> simp

theorem cuCtxCreate_m_context (d : Driver) (w : World) (dev : CUdevice) :
    (cuCtxCreate d w dev).1 = (d.cuCtxCreate w.live dev).1 ∧
    (cuCtxCreate d w dev).2.1.m_context = (d.cuCtxCreate w.live dev).2.getD w.m_context ∧
    (cuCtxCreate d w dev).2.1.live =
      (if (d.cuCtxCreate w.live dev).1 = CUDA_SUCCESS then
        match (d.cuCtxCreate w.live dev).2 with
        | some c => c :: w.live
        | none => w.live
      else w.live) := by
  unfold cuCtxCreate
  refine ⟨rfl, ?_, ?_⟩
  · simp only
    split_ifs
    · split <;> rfl
    · rfl
  · simp only
    split_ifs
    · split <;> rfl
    · rfl


theorem InitD3D12.loop_failure (d : Driver) (luid : LUID) :
    ∀ (k : Nat) (i : Int) (c : CUdevice) (r : CUresult),
      (InitD3D12.loop d luid k i c).1 = some r → r ≠ CUDA_SUCCESS := by
  intro k
  induction k with
  | zero => intro i c r h; simp [InitD3D12.loop] at h
  | succ k ih =>
    intro i c r h
    unfold InitD3D12.loop at h
    simp only at h
    split_ifs at h with h1 h2 h3
    · simp only [Option.some.injEq] at h
      rw [← h]; exact h1
    · simp only [Option.some.injEq] at h
      rw [← h]; exact h2
    · exact ih _ _ r h

theorem InitVulkan_shape (b : Build) (d : Driver) (p : VkPhysicalDevice) (w : World) :
    InitShape d w (InitVulkan b d p w) := by
  obtain ⟨hm, hl⟩ := LoadModule_m_context b d w
  have hcode : CUDA_ERROR_NO_DEVICE ≠ CUDA_SUCCESS ∧ CUDA_ERROR_INVALID_DEVICE ≠ CUDA_SUCCESS :=
    ⟨by decide, by decide⟩
  unfold InitVulkan
  simp only
  split_ifs with h1 h2 h3
  · exact Or.inl ⟨h1, hm, hl⟩
  · exact Or.inl ⟨h2, hm, hl⟩
  · exact Or.inl ⟨h3, hm, hl⟩
  · split
    · exact Or.inl ⟨hcode.2, hm, hl⟩
    · split_ifs
      · exact Or.inl ⟨hcode.1, hm, hl⟩
      · exact Or.inr ⟨_, _, hm, hl, rfl, rfl⟩

theorem InitD3D11_shape (b : Build) (d : Driver) (p : ID3D11Device) (w : World) :
    InitShape d w (InitD3D11 b d p w) := by
  obtain ⟨hm, hl⟩ := LoadModule_m_context b d w
  have hcode : CUDA_ERROR_NO_DEVICE ≠ CUDA_SUCCESS ∧ CUDA_ERROR_INVALID_DEVICE ≠ CUDA_SUCCESS :=
    ⟨by decide, by decide⟩
  unfold InitD3D11
  simp only
  split_ifs with h1 h2 h3
  · exact Or.inl ⟨h1, hm, hl⟩
  · exact Or.inl ⟨h2, hm, hl⟩
  · exact Or.inl ⟨h3, hm, hl⟩
  · split
    · exact Or.inl ⟨hcode.1, hm, hl⟩
    · split
      · exact Or.inl ⟨hcode.1, hm, hl⟩
      · split_ifs
        · exact Or.inl ⟨hcode.1, hm, hl⟩
        · exact Or.inr ⟨_, _, hm, hl, rfl, rfl⟩

theorem InitD3D12_shape (b : Build) (d : Driver) (p : ID3D12Device) (w : World) :
    InitShape d w (InitD3D12 b d p w) := by
  obtain ⟨hm, hl⟩ := LoadModule_m_context b d w
  have hcode : CUDA_ERROR_NO_DEVICE ≠ CUDA_SUCCESS ∧ CUDA_ERROR_INVALID_DEVICE ≠ CUDA_SUCCESS :=
    ⟨by decide, by decide⟩
  unfold InitD3D12
  simp only
  split_ifs with h1 h2 h3
  · exact Or.inl ⟨h1, hm, hl⟩
  · exact Or.inl ⟨h2, hm, hl⟩
  · exact Or.inl ⟨h3, hm, hl⟩
  · split
    · rename_i result hres
      exact Or.inl ⟨InitD3D12.loop_failure d _ _ _ _ result hres, hm, hl⟩
    · exact Or.inl ⟨hcode.1, hm, hl⟩
  · split
    · rename_i result hres
      exact Or.inl ⟨InitD3D12.loop_failure d _ _ _ _ result hres, hm, hl⟩
    · exact Or.inr ⟨_, _, hm, hl, rfl, rfl⟩

theorem InitGL_shape (b : Build) (d : Driver) (w : World) :
    InitShape d w (InitGL b d w) := by
  obtain ⟨hm, hl⟩ := LoadModule_m_context b d w
  have hcode : CUDA_ERROR_NO_DEVICE ≠ CUDA_SUCCESS ∧ CUDA_ERROR_INVALID_DEVICE ≠ CUDA_SUCCESS :=
    ⟨by decide, by decide⟩
  unfold InitGL
  simp only
  split_ifs with h1 h2 h3 h4 h5
  · exact Or.inl ⟨h1, hm, hl⟩
  · exact Or.inl ⟨h2, hm, hl⟩
  · exact Or.inl ⟨Ne.symm h3, hm, hl⟩
  · exact Or.inl ⟨hcode.1, hm, hl⟩
  · exact Or.inl ⟨Ne.symm h5, hm, hl⟩
  · exact Or.inr ⟨_, _, hm, hl, rfl, rfl⟩

/-- From the empty state, a result of `Init` shape and a `cuCtxCreate` that
stores nothing on failure and a non-null handle on success: failure leaves
the owned context empty, success leaves it non-empty. -/
theorem InitShape.keeps_context_empty {d : Driver} {w : World} {r : CUresult × World × List Call}
    (h : InitShape d w r) (hempty : w.m_context = 0)
    (hfail : ∀ (live : List CUcontext) (dev : CUdevice),
      (d.cuCtxCreate live dev).1 ≠ CUDA_SUCCESS → (d.cuCtxCreate live dev).2 = none)
    (hok : ∀ (live : List CUcontext) (dev : CUdevice),
      (d.cuCtxCreate live dev).1 = CUDA_SUCCESS →
        ∃ c, c ≠ 0 ∧ (d.cuCtxCreate live dev).2 = some c) :
    (r.1 ≠ CUDA_SUCCESS → r.2.1.m_context = 0) ∧ (r.1 = CUDA_SUCCESS → r.2.1.m_context ≠ 0) := by
  rcases h with ⟨hr, hm, _⟩ | ⟨v, dev, hv, _, hr1, hr2⟩
  · exact ⟨fun _ => hm.trans hempty, fun h => absurd h hr⟩
  · obtain ⟨e1, e2, _⟩ := cuCtxCreate_m_context d v dev
    rw [hr1, hr2, e1, e2]
    constructor
    · intro hne
      rw [hfail _ _ hne]
      simpa [hv] using hempty
    · intro heq
      obtain ⟨c, hc, hsome⟩ := hok _ _ heq
      rw [hsome]
      simpa using hc

/-- C8: from a state with no owned context, with a `cuCtxCreate` that
stores no handle when it fails and a non-null handle when it succeeds, each
`Init` variant (Vulkan, D3D11, D3D12, OpenGL) that returns a result other
than `CUDA_SUCCESS` leaves the owned context empty, and each that returns
`CUDA_SUCCESS` leaves it non-empty. -/
theorem Init_failure_retains_no_context (b : Build) (d : Driver) (w : World)
    (physicalDevice : VkPhysicalDevice) (device11 : ID3D11Device) (device12 : ID3D12Device)
    (hempty : w.m_context = 0)
    (hfail : ∀ (live : List CUcontext) (dev : CUdevice),
      (d.cuCtxCreate live dev).1 ≠ CUDA_SUCCESS → (d.cuCtxCreate live dev).2 = none)
    (hok : ∀ (live : List CUcontext) (dev : CUdevice),
      (d.cuCtxCreate live dev).1 = CUDA_SUCCESS →
        ∃ c, c ≠ 0 ∧ (d.cuCtxCreate live dev).2 = some c) :
    (((InitVulkan b d physicalDevice w).1 ≠ CUDA_SUCCESS →
        (InitVulkan b d physicalDevice w).2.1.m_context = 0) ∧
      ((InitVulkan b d physicalDevice w).1 = CUDA_SUCCESS →
        (InitVulkan b d physicalDevice w).2.1.m_context ≠ 0)) ∧
    (((InitD3D11 b d device11 w).1 ≠ CUDA_SUCCESS →
        (InitD3D11 b d device11 w).2.1.m_context = 0) ∧
      ((InitD3D11 b d device11 w).1 = CUDA_SUCCESS →
        (InitD3D11 b d device11 w).2.1.m_context ≠ 0)) ∧
    (((InitD3D12 b d device12 w).1 ≠ CUDA_SUCCESS →
        (InitD3D12 b d device12 w).2.1.m_context = 0) ∧
      ((InitD3D12 b d device12 w).1 = CUDA_SUCCESS →
        (InitD3D12 b d device12 w).2.1.m_context ≠ 0)) ∧
    (((InitGL b d w).1 ≠ CUDA_SUCCESS → (InitGL b d w).2.1.m_context = 0) ∧
      ((InitGL b d w).1 = CUDA_SUCCESS → (InitGL b d w).2.1.m_context ≠ 0)) :=
  ⟨(InitVulkan_shape b d physicalDevice w).keeps_context_empty hempty hfail hok,
    (InitD3D11_shape b d device11 w).keeps_context_empty hempty hfail hok,
    (InitD3D12_shape b d device12 w).keeps_context_empty hempty hfail hok,
    (InitGL_shape b d w).keeps_context_empty hempty hfail hok⟩

theorem foldr_max_ge (live : List Nat) : ∀ c ∈ live, c ≤ live.foldr max 0 := by
  induction live with
  | nil => intro c hc; simp at hc
  | cons x xs ih =>
    intro c hc
    simp only [List.mem_cons] at hc
    simp only [List.foldr_cons]
    rcases hc with rfl | hc
    · exact le_max_left _ _
    · exact le_trans (ih c hc) (le_max_right _ _)

theorem scarceDriver_createsFresh : CreatesFresh scarceDriver := by
  intro live dev
  by_cases h : dev = 10
  · subst h
    refine ⟨fun _ => ⟨live.foldr max 0 + 1, Nat.succ_ne_zero _, ?_, rfl⟩, fun hne => absurd rfl hne⟩
    intro hmem
    have := foldr_max_ge live _ hmem
    omega
  · refine ⟨fun heq => ?_, fun _ => ?_⟩
    · simp [scarceDriver, h, CUDA_ERROR_OUT_OF_MEMORY, CUDA_SUCCESS] at heq
    · simp [scarceDriver, h]

/-- Witness for C8: `cuCtxCreate` fails on the matched device, and `Init`
returns that failure with the owned context still empty. -/
theorem Init_failure_retains_no_context_witness :
    CudaContext.new.m_context = 0 ∧
    (∀ (live : List CUcontext) (dev : CUdevice),
      (scarceDriver.cuCtxCreate live dev).1 ≠ CUDA_SUCCESS →
        (scarceDriver.cuCtxCreate live dev).2 = none) ∧
    (∀ (live : List CUcontext) (dev : CUdevice),
      (scarceDriver.cuCtxCreate live dev).1 = CUDA_SUCCESS →
        ∃ c, c ≠ 0 ∧ (scarceDriver.cuCtxCreate live dev).2 = some c) ∧
    (InitVulkan windowsRelease scarceDriver ⟨some (CUuuid.ofByte 2)⟩ CudaContext.new).1
      = CUDA_ERROR_OUT_OF_MEMORY ∧
    (InitVulkan windowsRelease scarceDriver ⟨some (CUuuid.ofByte 2)⟩
      CudaContext.new).2.1.m_context = 0 :=
  have hfail : ∀ (live : List CUcontext) (dev : CUdevice),
      (scarceDriver.cuCtxCreate live dev).1 ≠ CUDA_SUCCESS →
        (scarceDriver.cuCtxCreate live dev).2 = none :=
    fun live dev => (scarceDriver_createsFresh live dev).2
  have hok : ∀ (live : List CUcontext) (dev : CUdevice),
      (scarceDriver.cuCtxCreate live dev).1 = CUDA_SUCCESS →
        ∃ c, c ≠ 0 ∧ (scarceDriver.cuCtxCreate live dev).2 = some c :=
    fun live dev h =>
      let ⟨c, hc, _, hs⟩ := (scarceDriver_createsFresh live dev).1 h
      ⟨c, hc, hs⟩
  ⟨rfl, hfail, hok, by decide,
    (Init_failure_retains_no_context windowsRelease scarceDriver CudaContext.new
      ⟨some (CUuuid.ofByte 2)⟩ ⟨none⟩ ⟨⟨[], []⟩⟩ rfl hfail hok).1.1 (by decide)⟩

/-- C9 as stated fails: two successful `Init` calls with no `Shutdown`
between them leave context 1, created by the first, live and not owned. -/
theorem second_Init_leaks_first_context :
    (InitVulkan linuxDebug (simulatedDriver twoDevices) ⟨some (CUuuid.ofByte 1)⟩
        CudaContext.new).1 = CUDA_SUCCESS ∧
    (InitVulkan linuxDebug (simulatedDriver twoDevices) ⟨some (CUuuid.ofByte 1)⟩
        (InitVulkan linuxDebug (simulatedDriver twoDevices) ⟨some (CUuuid.ofByte 1)⟩
          CudaContext.new).2.1).1 = CUDA_SUCCESS ∧
    run linuxDebug
        [Op.initVulkan (simulatedDriver twoDevices) ⟨some (CUuuid.ofByte 1)⟩,
          Op.initVulkan (simulatedDriver twoDevices) ⟨some (CUuuid.ofByte 1)⟩]
        CudaContext.new
      = { m_context := 2, s_hModule := 0, current := 2, live := [2, 1] } ∧
    ¬ NoLeak (run linuxDebug
        [Op.initVulkan (simulatedDriver twoDevices) ⟨some (CUuuid.ofByte 1)⟩,
          Op.initVulkan (simulatedDriver twoDevices) ⟨some (CUuuid.ofByte 1)⟩]
        CudaContext.new) := by
  have hrun : run linuxDebug
        [Op.initVulkan (simulatedDriver twoDevices) ⟨some (CUuuid.ofByte 1)⟩,
          Op.initVulkan (simulatedDriver twoDevices) ⟨some (CUuuid.ofByte 1)⟩]
        CudaContext.new
      = { m_context := 2, s_hModule := 0, current := 2, live := [2, 1] } := by decide
  refine ⟨by decide, by decide, hrun, ?_⟩
  rw [hrun]
  intro h
  have := h 1 (by simp)
  simp at this

theorem Op.step_keeps_NoLeak (b : Build) (op : Op) (w : World)
    (hdrv : ∀ d, op.driver = some d → CreatesFresh d)
    (hguard : op.isInit = true → w.m_context = 0)
    (hinv : NoLeak w) (hnull : 0 ∉ w.live) :
    NoLeak (op.step b w) ∧ 0 ∉ (op.step b w).live := by
  have init : ∀ (d : Driver) (r : CUresult × World × List Call), CreatesFresh d →
      InitShape d w r → w.m_context = 0 → NoLeak r.2.1 ∧ 0 ∉ r.2.1.live := by
    intro d r hd hshape hm
    have hlive : w.live = [] := by
      apply List.eq_nil_iff_forall_not_mem.2
      intro c hc
      have := hinv c hc
      rw [hm] at this
      exact hnull (this ▸ hc)
    rcases hshape with ⟨_, h1, h2⟩ | ⟨v, dev, hv, hvl, _, hr2⟩
    · unfold NoLeak
      rw [h2, hlive]
      simp
    · obtain ⟨_, e2, e3⟩ := cuCtxCreate_m_context d v dev
      unfold NoLeak
      rw [hr2, e2, e3, hvl, hlive, hv, hm]
      obtain ⟨hs, hf⟩ := hd [] dev
      by_cases hres : (d.cuCtxCreate [] dev).1 = CUDA_SUCCESS
      · obtain ⟨c, hc, _, hsome⟩ := hs hres
        simp [hres, hsome, Ne.symm hc]
      · simp [hres, hf hres]
  cases op with
  | initVulkan d p => exact init d _ (hdrv d rfl) (InitVulkan_shape b d p w) (hguard rfl)
  | initD3D11 d p => exact init d _ (hdrv d rfl) (InitD3D11_shape b d p w) (hguard rfl)
  | initD3D12 d p => exact init d _ (hdrv d rfl) (InitD3D12_shape b d p w) (hguard rfl)
  | initGL d => exact init d _ (hdrv d rfl) (InitGL_shape b d w) (hguard rfl)
  | shutdown =>
    simp only [Op.step, Shutdown, NoLeak]
    by_cases hm : w.m_context = 0
    · have hlive : w.live = [] := by
        apply List.eq_nil_iff_forall_not_mem.2
        intro c hc
        have := hinv c hc
        rw [hm] at this
        exact hnull (this ▸ hc)
      by_cases hs : w.s_hModule = 0 <;> simp [hm, hs, hlive]
    · have hall : ∀ c ∈ w.live, ¬c = w.m_context → c = 0 :=
        fun c hc hne => absurd (hinv c hc) hne
      by_cases hs : w.s_hModule = 0 <;> simp [hm, hs, Ne.symm hm] <;> exact ⟨hall, hnull⟩

/-- C9 as amended: when every `Init` of a call sequence is issued while the
owned context is empty, and `cuCtxCreate` keeps its contract, every live
context is the owned one after the sequence (and no live context is null),
given that this held before it. -/
theorem guarded_calls_never_leak (b : Build) (ops : List Op) (w : World)
    (hdrv : ∀ op ∈ ops, ∀ d, op.driver = some d → CreatesFresh d)
    (hguard : Guarded b ops w)
    (hinv : NoLeak w) (hnull : 0 ∉ w.live) :
    NoLeak (run b ops w) ∧ 0 ∉ (run b ops w).live := by
  induction ops generalizing w with
  | nil => exact ⟨hinv, hnull⟩
  | cons op ops ih =>
    obtain ⟨h1, h2⟩ := Op.step_keeps_NoLeak b op w (hdrv op (List.mem_cons_self _ _))
      hguard.1 hinv hnull
    exact ih (op.step b w) (fun o ho => hdrv o (List.mem_cons_of_mem _ ho)) hguard.2 h1 h2

/-- Witness for C9 as amended: create, shut down, create again. -/
theorem guarded_calls_never_leak_witness :
    (∀ op ∈ guardedCalls, ∀ d, op.driver = some d → CreatesFresh d) ∧
    Guarded linuxDebug guardedCalls CudaContext.new ∧
    NoLeak CudaContext.new ∧ 0 ∉ CudaContext.new.live ∧
    (run linuxDebug guardedCalls CudaContext.new).live = [1] ∧
    NoLeak (run linuxDebug guardedCalls CudaContext.new) ∧
    0 ∉ (run linuxDebug guardedCalls CudaContext.new).live :=
  have hdrv : ∀ op ∈ guardedCalls, ∀ d, op.driver = some d → CreatesFresh d := by
    intro op hop d hd
    simp only [guardedCalls, List.mem_cons, List.mem_singleton, List.not_mem_nil, or_false] at hop
    rcases hop with rfl | rfl | rfl
    · simp only [Op.driver, Option.some.injEq] at hd
      rw [← hd]; exact scarceDriver_createsFresh
    · simp [Op.driver] at hd
    · simp only [Op.driver, Option.some.injEq] at hd
      rw [← hd]; exact scarceDriver_createsFresh
  have hguard : Guarded linuxDebug guardedCalls CudaContext.new :=
    ⟨fun _ => rfl, fun h => by simp [Op.isInit] at h, fun _ => by decide, trivial⟩
  have hinv : NoLeak CudaContext.new := by
    intro c hc
    simp [CudaContext.new] at hc
  have hnull : 0 ∉ CudaContext.new.live := by simp [CudaContext.new]
  ⟨hdrv, hguard, hinv, hnull, by decide,
    guarded_calls_never_leak linuxDebug guardedCalls CudaContext.new hdrv hguard hinv hnull⟩

/-! ## Lemmas on the catalog order -/

theorem compareFormats_strictWeak : StrictWeakOrdering compareFormats := by
  constructor
  · intro a b h
    simp only [compareFormats, decide_eq_true_eq] at h
    simp only [compareFormats, decide_eq_false_iff_not]
    omega
  · intro a b c h1 h2
    simp only [compareFormats, decide_eq_false_iff_not] at h1 h2 ⊢
    omega

/-- A rearrangement in non-decreasing rank order of a list that can be put
in strictly increasing rank order is that strictly increasing list. -/
theorem eq_of_perm_of_strict_ranks (l₁ l₂ : List SdpVideoFormat) (hperm : l₁.Perm l₂)
    (h₁ : l₁.Pairwise (fun a b => findIndex a ≤ findIndex b))
    (h₂ : l₂.Pairwise (fun a b => findIndex a < findIndex b)) : l₁ = l₂ := by
  have hne₂ : l₂.Pairwise (fun a b => findIndex a ≠ findIndex b) :=
    h₂.imp (fun h => ne_of_lt h)
  have hne₁ : l₁.Pairwise (fun a b => findIndex a ≠ findIndex b) :=
    hperm.symm.pairwise hne₂ (fun h => Ne.symm h)
  have hlt₁ : l₁.Pairwise (fun a b => findIndex a < findIndex b) :=
    (h₁.and hne₁).imp (fun h => lt_of_le_of_ne h.1 h.2)
  haveI : IsAntisymm SdpVideoFormat (fun a b => findIndex a < findIndex b) :=
    ⟨fun a b hab hba => absurd hab (not_lt_of_lt hba)⟩
  exact List.eq_of_perm_of_sorted hperm hlt₁ h₂

theorem findIndex_cases (x : SdpVideoFormat) :
    findIndex x = 0 ∨ findIndex x = 1 ∨ findIndex x = 2 ∨ findIndex x = 3 ∨
      findIndex x = LONG_MAX := by
  unfold findIndex
  have hle : sortOrder.indexOf x.name ≤ sortOrder.length := List.indexOf_le_length
  have hlen : sortOrder.length = 4 := rfl
  simp only
  split_ifs with h
  · simp
  · rw [hlen] at hle h
    have : sortOrder.indexOf x.name < 4 := lt_of_le_of_ne hle h
    interval_cases sortOrder.indexOf x.name <;> simp

theorem count_filter_rank (a : SdpVideoFormat) (r : Int) (xs : List SdpVideoFormat) :
    (xs.filter (fun f => findIndex f = r)).count a = if findIndex a = r then xs.count a else 0 := by
  split_ifs with h
  · exact List.count_filter (by simpa using h)
  · apply List.count_eq_zero_of_not_mem
    intro hm
    have := (List.mem_filter.1 hm).2
    exact h (by simpa using this)

theorem stableSortByRank_perm (xs : List SdpVideoFormat) : (stableSortByRank xs).Perm xs := by
  rw [List.perm_iff_count]
  intro a
  have h3 : (3 : Int) < LONG_MAX := by decide
  simp only [stableSortByRank, List.count_append, count_filter_rank]
  rcases findIndex_cases a with h | h | h | h | h <;> rw [h] <;> simp <;> omega

theorem stableSortByRank_sorted (xs : List SdpVideoFormat) :
    (stableSortByRank xs).Pairwise (fun a b => findIndex a ≤ findIndex b) := by
  have h3 : (3 : Int) < LONG_MAX := by decide
  have hf : ∀ r : Int, (xs.filter (fun f => findIndex f = r)).Pairwise
      (fun a b => findIndex a ≤ findIndex b) := by
    intro r
    rw [List.pairwise_iff_forall_sublist]
    intro a b hab
    have ha := (List.mem_filter.1 (hab.subset (List.mem_cons_self _ _))).2
    have hb := (List.mem_filter.1 (hab.subset (List.mem_cons_of_mem _ (List.mem_singleton_self _)))).2
    simp only [decide_eq_true_eq] at ha hb
    omega
  simp only [stableSortByRank, List.pairwise_append, List.mem_append, List.mem_filter,
    decide_eq_true_eq]
  refine ⟨⟨⟨⟨hf 0, hf 1, ?_⟩, hf 2, ?_⟩, hf 3, ?_⟩, hf LONG_MAX, ?_⟩
  · rintro a ⟨_, ha⟩ b ⟨_, hb⟩; omega
  · rintro a (⟨_, ha⟩ | ⟨_, ha⟩) b ⟨_, hb⟩ <;> omega
  · rintro a ((⟨_, ha⟩ | ⟨_, ha⟩) | ⟨_, ha⟩) b ⟨_, hb⟩ <;> omega
  · rintro a (((⟨_, ha⟩ | ⟨_, ha⟩) | ⟨_, ha⟩) | ⟨_, ha⟩) b ⟨_, hb⟩ <;> omega

/-! ## The short-range `std::sort` is a stable insertion sort -/

namespace std

theorem getElem_at {α : Type} (P R : List α) (c : α) (n : Nat) (h : n = P.length) :
    (P ++ c :: R)[n]? = some c := by
  subst h
  rw [List.getElem?_append_right (le_refl _)]
  simp

theorem set_at {α : Type} (P R : List α) (c v : α) (n : Nat) (h : n = P.length) :
    (P ++ c :: R).set n v = P ++ v :: R := by
  subst h
  rw [List.set_append_right _ _ (le_refl _)]
  simp

theorem linear_insert_loop {α : Type} (comp : α → α → Bool) (val : α) (A : List α) :
    ∀ (B R : List α) (c : α) (n : Nat), n = A.length + B.length →
      (∀ b ∈ B, comp val b = true) → (∀ a ∈ A, comp val a = false) →
      __unguarded_linear_insert.loop comp val (A ++ B ++ c :: R) n = A ++ val :: B ++ R := by
  intro B
  induction B using List.reverseRecOn with
  | nil =>
    intro R c n hn _ hA
    simp only [List.length_nil, Nat.add_zero] at hn
    subst hn
    simp only [List.append_nil]
    rcases List.eq_nil_or_concat A with hnil | ⟨A1, a, hA1⟩
    · subst hnil
      simp [__unguarded_linear_insert.loop]
    · rw [List.concat_eq_append] at hA1
      subst hA1
      have ha : comp val a = false := hA a (by simp)
      have hlen : (A1 ++ [a]).length = A1.length + 1 := by simp
      rw [hlen]
      unfold __unguarded_linear_insert.loop
      have hget : (A1 ++ [a] ++ c :: R)[A1.length]? = some a := by
        have e : A1 ++ [a] ++ c :: R = A1 ++ a :: (c :: R) := by simp
        rw [e]
        exact getElem_at _ _ _ _ rfl
      have hset : (A1 ++ [a] ++ c :: R).set (A1.length + 1) val = A1 ++ [a] ++ val :: R :=
        set_at _ _ _ _ _ hlen.symm
      simp only [valLess, hget, ha, hset]
      simp
  | append_singleton B1 b ih =>
    intro R c n hn hB hA
    have hb : comp val b = true := hB b (by simp)
    have hn1 : n = (A.length + B1.length) + 1 := by
      rw [hn]; simp [Nat.add_assoc]
    subst hn1
    unfold __unguarded_linear_insert.loop
    have hget : (A ++ (B1 ++ [b]) ++ c :: R)[A.length + B1.length]? = some b := by
      have e : A ++ (B1 ++ [b]) ++ c :: R = (A ++ B1) ++ b :: (c :: R) := by simp
      rw [e]
      exact getElem_at _ _ _ _ (by simp)
    have hmove : moveTo (A ++ (B1 ++ [b]) ++ c :: R) (A.length + B1.length + 1)
        (A.length + B1.length) = A ++ B1 ++ b :: (b :: R) := by
      unfold moveTo
      rw [hget]
      have e1 : A ++ (B1 ++ [b]) ++ c :: R = (A ++ B1 ++ [b]) ++ c :: R := by simp
      rw [e1]
      simp only
      rw [set_at _ _ _ _ _ (by simp [Nat.add_assoc])]
      simp
    simp only [valLess, hget, hb, if_true, hmove]
    rw [ih (b :: R) b (A.length + B1.length) rfl
      (fun x hx => hB x (by simp [hx])) hA]
    simp

theorem less_of_sorted {α : Type} {comp : α → α → Bool} (hcomp : StrictWeakOrdering comp)
    {v x y : α} (hvx : comp v x = true) (hyx : comp y x = false) : comp v y = true := by
  cases h : comp v y
  · have := hcomp.2 x y v hyx h
    rw [hvx] at this
    exact absurd this (by decide)
  · rfl

theorem sorted_split {α : Type} {comp : α → α → Bool} (hcomp : StrictWeakOrdering comp)
    (v : α) :
    ∀ P : List α, P.Pairwise (fun a b => comp b a = false) →
      P = P.filter (fun a => !comp v a) ++ P.filter (fun a => comp v a) := by
  intro P
  induction P with
  | nil => intro _; rfl
  | cons x xs ih =>
    intro hP
    rw [List.pairwise_cons] at hP
    cases hvx : comp v x
    · simp only [List.filter_cons, hvx, Bool.not_false, if_true, Bool.false_eq_true, if_false,
        List.cons_append]
      rw [← ih hP.2]
    · have hall : ∀ y ∈ xs, comp v y = true := fun y hy => less_of_sorted hcomp hvx (hP.1 y hy)
      have h1 : xs.filter (fun a => !comp v a) = [] := by
        rw [List.filter_eq_nil_iff]
        intro y hy
        simp [hall y hy]
      have h2 : xs.filter (fun a => comp v a) = xs := by
        rw [List.filter_eq_self]
        exact hall
      simp [List.filter_cons, hvx, h1, h2]

theorem insertBehind_length {α : Type} (comp : α → α → Bool) (P : List α) (v : α) :
    (insertBehind comp P v).length = P.length + 1 := by
  have h := (List.filter_append_perm (fun a => comp v a) P).length_eq
  simp only [List.length_append] at h
  simp only [insertBehind, List.length_append, List.length_cons]
  omega

theorem insertBehind_sorted {α : Type} {comp : α → α → Bool} (hcomp : StrictWeakOrdering comp)
    (P : List α) (v : α) (hP : P.Pairwise (fun a b => comp b a = false)) :
    (insertBehind comp P v).Pairwise (fun a b => comp b a = false) := by
  unfold insertBehind
  rw [List.pairwise_append, List.pairwise_cons]
  refine ⟨hP.sublist (List.filter_sublist _), ⟨?_, hP.sublist (List.filter_sublist _)⟩, ?_⟩
  · intro b hb
    have hvb : comp v b = true := by simpa using (List.mem_filter.1 hb).2
    exact hcomp.1 v b hvb
  · intro a ha b hb
    have hva : comp v a = false := by simpa using (List.mem_filter.1 ha).2
    simp only [List.mem_cons] at hb
    rcases hb with rfl | hb
    · exact hva
    · have hvb : comp v b = true := by simpa using (List.mem_filter.1 hb).2
      cases hba : comp b a
      · rfl
      · have := less_of_sorted hcomp hvb (hcomp.1 b a hba)
        rw [hva] at this
        exact absurd this (by decide)

theorem insertion_sort_loop {α : Type} {comp : α → α → Bool} (hcomp : StrictWeakOrdering comp) :
    ∀ (rest P : List α), P ≠ [] → P.Pairwise (fun a b => comp b a = false) →
      __insertion_sort.loop comp 0 rest.length (P ++ rest) P.length
        = rest.foldl (insertBehind comp) P := by
  intro rest
  induction rest with
  | nil => intro P _ _; simp [__insertion_sort.loop]
  | cons v rest ih =>
    intro P hne hP
    obtain ⟨p0, P1, hP0⟩ := List.exists_cons_of_ne_nil hne
    have hgetv : (P ++ v :: rest)[P.length]? = some v := getElem_at _ _ _ _ rfl
    have hget0 : (P ++ v :: rest)[0]? = some p0 := by rw [hP0]; simp
    have hstep : (if iterLess comp (P ++ v :: rest) P.length 0 = true then
          match (P ++ v :: rest)[P.length]? with
          | some val =>
            (P ++ v :: rest).take 0 ++ val :: ((P ++ v :: rest).drop 0).take (P.length - 0)
              ++ (P ++ v :: rest).drop (P.length + 1)
          | none => P ++ v :: rest
        else __unguarded_linear_insert comp (P ++ v :: rest) P.length)
        = insertBehind comp P v ++ rest := by
      have hless : iterLess comp (P ++ v :: rest) P.length 0 = comp v p0 := by
        simp [iterLess, hgetv, hget0]
      rw [hless]
      cases hv0 : comp v p0
      · simp only [Bool.false_eq_true, if_false]
        unfold __unguarded_linear_insert
        rw [hgetv]
        simp only
        have hsplit := sorted_split hcomp v P hP
        have hlen : P.length = (P.filter (fun a => !comp v a)).length
            + (P.filter (fun a => comp v a)).length := by
          conv_lhs => rw [hsplit]
          simp
        have hxs : P ++ v :: rest = P.filter (fun a => !comp v a)
            ++ P.filter (fun a => comp v a) ++ v :: rest := by
          rw [← hsplit]
        rw [hxs, linear_insert_loop comp v _ _ rest v _ hlen
          (fun b hb => by simpa using (List.mem_filter.1 hb).2)
          (fun a ha => by simpa using (List.mem_filter.1 ha).2)]
        simp [insertBehind]
      · simp only [if_true, hgetv]
        have hall : ∀ y ∈ P, comp v y = true := by
          intro y hy
          rw [hP0] at hy hP
          rw [List.pairwise_cons] at hP
          simp only [List.mem_cons] at hy
          rcases hy with rfl | hy
          · exact hv0
          · exact less_of_sorted hcomp hv0 (hP.1 y hy)
        have h1 : P.filter (fun a => !comp v a) = [] := by
          rw [List.filter_eq_nil_iff]
          intro y hy
          simp [hall y hy]
        have h2 : P.filter (fun a => comp v a) = P := by
          rw [List.filter_eq_self]
          exact hall
        simp [insertBehind, h1, h2]
    unfold __insertion_sort.loop
    simp only [List.length_cons]
    rw [hstep]
    have := ih (insertBehind comp P v) (by simp [insertBehind])
      (insertBehind_sorted hcomp P v hP)
    rw [insertBehind_length] at this
    rw [this]
    rfl

theorem insertion_sort_eq {α : Type} {comp : α → α → Bool} (hcomp : StrictWeakOrdering comp)
    (xs : List α) : __insertion_sort comp xs 0 xs.length = stableSortBy comp xs := by
  cases xs with
  | nil => simp [__insertion_sort, stableSortBy]
  | cons x rest =>
    have h := insertion_sort_loop hcomp rest [x] (by simp) (by simp)
    simp only [__insertion_sort, List.length_cons, stableSortBy, List.foldl_cons]
    simp only [List.length_singleton, List.singleton_append] at h
    have e : insertBehind comp [] x = [x] := by simp [insertBehind]
    rw [e, ← h]
    simp

theorem sort_short {α : Type} {comp : α → α → Bool} (hcomp : StrictWeakOrdering comp)
    (xs : List α) (hlen : xs.length ≤ _S_threshold) : sort comp xs = stableSortBy comp xs := by
  have hn : ¬ _S_threshold < xs.length - 0 := by simpa using hlen
  have hintro : ∀ d, __introsort_loop comp d xs 0 xs.length = xs := by
    intro d
    unfold __introsort_loop
    rw [if_neg hn]
  unfold sort __sort
  split_ifs with h0
  · rw [hintro]
    unfold __final_insertion_sort
    rw [if_neg hn]
    exact insertion_sort_eq hcomp xs
  · have : xs = [] := by
      have : xs.length = 0 := by
        by_contra hne
        exact h0 (Ne.symm hne)
      exact List.length_eq_zero.1 this
    subst this
    rfl

end std

theorem stableSortBy_concat {α : Type} (comp : α → α → Bool) (l : List α) (v : α) :
    stableSortBy comp (l ++ [v]) = insertBehind comp (stableSortBy comp l) v := by
  simp [stableSortBy, List.foldl_append]

theorem bucket_not_less (l : List SdpVideoFormat) (v : SdpVideoFormat) (r : Int) :
    (l.filter (fun f => findIndex f = r)).filter (fun a => !compareFormats v a)
      = if r ≤ findIndex v then l.filter (fun f => findIndex f = r) else [] := by
  split_ifs with h
  · rw [List.filter_eq_self]
    intro a ha
    have := (List.mem_filter.1 ha).2
    simp only [decide_eq_true_eq] at this
    simp only [compareFormats, Bool.not_eq_true', decide_eq_false_iff_not]
    omega
  · rw [List.filter_eq_nil_iff]
    intro a ha
    have := (List.mem_filter.1 ha).2
    simp only [decide_eq_true_eq] at this
    simp only [compareFormats, Bool.not_eq_true', decide_eq_false_iff_not, not_not]
    omega

theorem bucket_less (l : List SdpVideoFormat) (v : SdpVideoFormat) (r : Int) :
    (l.filter (fun f => findIndex f = r)).filter (fun a => compareFormats v a)
      = if findIndex v < r then l.filter (fun f => findIndex f = r) else [] := by
  split_ifs with h
  · rw [List.filter_eq_self]
    intro a ha
    have := (List.mem_filter.1 ha).2
    simp only [decide_eq_true_eq] at this
    simp only [compareFormats, decide_eq_true_eq]
    omega
  · rw [List.filter_eq_nil_iff]
    intro a ha
    have := (List.mem_filter.1 ha).2
    simp only [decide_eq_true_eq] at this
    simp only [compareFormats, decide_eq_true_eq]
    omega

theorem stableSortByRank_concat (l : List SdpVideoFormat) (v : SdpVideoFormat) :
    stableSortByRank (l ++ [v]) = insertBehind compareFormats (stableSortByRank l) v := by
  have h3 : (3 : Int) < LONG_MAX := by decide
  simp only [stableSortByRank, insertBehind, List.filter_append, bucket_not_less, bucket_less,
    List.filter_cons, List.filter_nil]
  rcases findIndex_cases v with h | h | h | h | h <;> rw [h] <;>
    simp [LONG_MAX]

theorem stableSortBy_eq_stableSortByRank (xs : List SdpVideoFormat) :
    stableSortBy compareFormats xs = stableSortByRank xs := by
  induction xs using List.reverseRecOn with
  | nil => rfl
  | append_singleton l v ih =>
    rw [stableSortBy_concat, ih, stableSortByRank_concat]

theorem insertBehind_perm {α : Type} (comp : α → α → Bool) (P : List α) (v : α) :
    (insertBehind comp P v).Perm (P ++ [v]) := by
  unfold insertBehind
  have h := List.filter_append_perm (fun a => comp v a) P
  refine List.perm_middle.trans ?_
  refine (List.perm_append_singleton v _).symm.trans ?_
  exact List.Perm.append_right [v] (List.perm_append_comm.trans h)

theorem foldl_insertBehind {α : Type} {comp : α → α → Bool} (hcomp : StrictWeakOrdering comp) :
    ∀ (xs P : List α), P.Pairwise (fun a b => comp b a = false) →
      (xs.foldl (insertBehind comp) P).Perm (P ++ xs) ∧
        (xs.foldl (insertBehind comp) P).Pairwise (fun a b => comp b a = false) := by
  intro xs
  induction xs with
  | nil => intro P hP; simpa using hP
  | cons v xs ih =>
    intro P hP
    obtain ⟨h1, h2⟩ := ih (insertBehind comp P v) (std.insertBehind_sorted hcomp P v hP)
    refine ⟨?_, h2⟩
    simp only [List.foldl_cons]
    refine h1.trans ?_
    have := List.Perm.append_right xs (insertBehind_perm comp P v)
    simpa using this

theorem stableSortBy_contract : StdSortContract stableSortBy := by
  intro comp hcomp xs
  have := foldl_insertBehind hcomp xs [] List.Pairwise.nil
  simpa [stableSortBy] using this

set_option maxRecDepth 100000 in
/-- C2 as stated fails: with the `std::sort` of the GNU C++ library and a
software catalog of seventeen formats of equal rank, `GetSupportedFormats`
returns them in the order F08, F16 down to F09, F00, F07 down to F01, which
is a rearrangement in non-decreasing rank order and is not the stable sort
(the stable sort keeps F00 to F16 in discovery order). -/
theorem GetSupportedFormats_not_always_stable :
    UnityVideoEncoderFactory.GetSupportedFormats std.sort
        (sampleFactory seventeenFormats none none)
      = [fmt "F08", fmt "F16", fmt "F15", fmt "F14", fmt "F13", fmt "F12", fmt "F11",
          fmt "F10", fmt "F09", fmt "F00", fmt "F07", fmt "F06", fmt "F05", fmt "F04",
          fmt "F03", fmt "F02", fmt "F01"] ∧
    stableSortByRank (seventeenFormats ++ []) = seventeenFormats ∧
    UnityVideoEncoderFactory.GetSupportedFormats std.sort
        (sampleFactory seventeenFormats none none)
      ≠ stableSortByRank (seventeenFormats ++ []) ∧
    (∀ x ∈ seventeenFormats, findIndex x = LONG_MAX) ∧
    (UnityVideoEncoderFactory.GetSupportedFormats std.sort
        (sampleFactory seventeenFormats none none)).Perm (seventeenFormats ++ []) := by
  have hrun : UnityVideoEncoderFactory.GetSupportedFormats std.sort
        (sampleFactory seventeenFormats none none)
      = [fmt "F08", fmt "F16", fmt "F15", fmt "F14", fmt "F13", fmt "F12", fmt "F11",
          fmt "F10", fmt "F09", fmt "F00", fmt "F07", fmt "F06", fmt "F05", fmt "F04",
          fmt "F03", fmt "F02", fmt "F01"] := by decide
  have hstable : stableSortByRank (seventeenFormats ++ []) = seventeenFormats := by decide
  refine ⟨hrun, hstable, ?_, by decide, ?_⟩
  · rw [hrun, hstable]
    decide
  · rw [hrun]
    decide

/-- C2 as amended: for every sort procedure meeting the contract of
`std::sort`, `GetSupportedFormats` returns a rearrangement of `S ++ H` (`S`
alone with no hardware backend) in non-decreasing rank order, where the rank
is 0 for VP8, 1 for VP9, 2 for H264, 3 for AV1X and `LONG_MAX` for any other
name; when no two formats share a rank the result is that strictly
increasing order, which is the stable sort, as for
[AV1X, H264, VP8, VP9, Opaque], which yields
[VP8, VP9, H264, AV1X, Opaque].  With the `std::sort` of the GNU C++ library
the result is exactly the stable sort whenever `S ++ H` has at most sixteen
formats. -/
theorem GetSupportedFormats_sorted_permutation (T : EncoderTypes)
    (stdSort : (SdpVideoFormat → SdpVideoFormat → Bool) →
      List SdpVideoFormat → List SdpVideoFormat)
    (hsort : StdSortContract stdSort) (f : UnityVideoEncoderFactory T)
    (S : List SdpVideoFormat) (H : Option (List SdpVideoFormat))
    (hS : f.internal_encoder_factory_.GetSupportedFormats = S)
    (hH : f.native_encoder_factory_.map (fun n => n.GetSupportedFormats) = H) :
    (f.GetSupportedFormats stdSort).Perm (S ++ H.getD []) ∧
    (f.GetSupportedFormats stdSort).Pairwise (fun a b => findIndex a ≤ findIndex b) ∧
    (∀ target : List SdpVideoFormat, target.Perm (S ++ H.getD []) →
      target.Pairwise (fun a b => findIndex a < findIndex b) →
      f.GetSupportedFormats stdSort = target) ∧
    ((S ++ H.getD []).Pairwise (fun a b => findIndex a ≠ findIndex b) →
      f.GetSupportedFormats stdSort = stableSortByRank (S ++ H.getD [])) ∧
    ((S ++ H.getD []).length ≤ 16 →
      f.GetSupportedFormats std.sort = stableSortByRank (S ++ H.getD [])) ∧
    (S = [fmt "AV1X", fmt "H264", fmt "VP8", fmt "VP9", fmt "Opaque"] → H = none →
      f.GetSupportedFormats stdSort
        = [fmt "VP8", fmt "VP9", fmt "H264", fmt "AV1X", fmt "Opaque"]) ∧
    (∀ p, findIndex ⟨"VP8", p⟩ = 0 ∧ findIndex ⟨"VP9", p⟩ = 1 ∧ findIndex ⟨"H264", p⟩ = 2 ∧
      findIndex ⟨"AV1X", p⟩ = 3) ∧
    (∀ x : SdpVideoFormat, x.name ∉ sortOrder → findIndex x = LONG_MAX) ∧
    3 < LONG_MAX := by
  have hany : ∀ srt : (SdpVideoFormat → SdpVideoFormat → Bool) →
      List SdpVideoFormat → List SdpVideoFormat,
      f.GetSupportedFormats srt = srt compareFormats (S ++ H.getD []) := by
    intro srt
    subst hS; subst hH
    unfold UnityVideoEncoderFactory.GetSupportedFormats
    cases f.native_encoder_factory_ <;> simp
  have hall : f.GetSupportedFormats stdSort = stdSort compareFormats (S ++ H.getD []) :=
    hany stdSort
  obtain ⟨hperm, hsorted⟩ := hsort compareFormats compareFormats_strictWeak (S ++ H.getD [])
  have hle : (f.GetSupportedFormats stdSort).Pairwise
      (fun a b => findIndex a ≤ findIndex b) := by
    rw [hall]
    refine hsorted.imp (fun {a b} h => ?_)
    simp only [compareFormats, decide_eq_false_iff_not] at h
    omega
  have huniq : ∀ target : List SdpVideoFormat, target.Perm (S ++ H.getD []) →
      target.Pairwise (fun a b => findIndex a < findIndex b) →
      f.GetSupportedFormats stdSort = target := by
    intro target hp hs
    refine eq_of_perm_of_strict_ranks _ _ ?_ hle hs
    rw [hall]
    exact hperm.trans hp.symm
  refine ⟨hall ▸ hperm, hle, huniq, ?_, ?_, ?_, ?_, ?_, by decide⟩
  · intro hne
    refine huniq _ (stableSortByRank_perm _) ?_
    have hne2 : (stableSortByRank (S ++ H.getD [])).Pairwise
        (fun a b => findIndex a ≠ findIndex b) :=
      (stableSortByRank_perm _).symm.pairwise hne (fun h => Ne.symm h)
    exact ((stableSortByRank_sorted _).and hne2).imp (fun h => lt_of_le_of_ne h.1 h.2)
  · intro hlen
    rw [hany std.sort, std.sort_short compareFormats_strictWeak _ hlen,
      stableSortBy_eq_stableSortByRank]
  · intro h1 h2
    subst h1; subst h2
    exact huniq _ (by decide) (by decide)
  · intro p
    simp [findIndex, sortOrder, List.indexOf_cons]
  · intro x hx
    unfold findIndex
    have : sortOrder.indexOf x.name = sortOrder.length := List.indexOf_eq_length.2 hx
    simp [this]

/-- Witness for C2 as amended: software [VP8, H264, VP9] and hardware
[H264, AV1X], with the duplicate H264 kept, sorted by the stable insertion
sort, which meets the contract of `std::sort`; on this input the
`std::sort` of the GNU C++ library returns the same list. -/
theorem GetSupportedFormats_sorted_permutation_witness :
    StdSortContract stableSortBy ∧
    (sampleFactory [fmt "VP8", fmt "H264", fmt "VP9"] (some [fmt "H264", fmt "AV1X"])
        none).internal_encoder_factory_.GetSupportedFormats
      = [fmt "VP8", fmt "H264", fmt "VP9"] ∧
    (sampleFactory [fmt "VP8", fmt "H264", fmt "VP9"] (some [fmt "H264", fmt "AV1X"])
        none).native_encoder_factory_.map (fun n => n.GetSupportedFormats)
      = some [fmt "H264", fmt "AV1X"] ∧
    ((sampleFactory [fmt "VP8", fmt "H264", fmt "VP9"] (some [fmt "H264", fmt "AV1X"])
        none).GetSupportedFormats stableSortBy).Perm
      ([fmt "VP8", fmt "H264", fmt "VP9"] ++ (some [fmt "H264", fmt "AV1X"]).getD []) ∧
    (sampleFactory [fmt "VP8", fmt "H264", fmt "VP9"] (some [fmt "H264", fmt "AV1X"])
        none).GetSupportedFormats std.sort
      = (sampleFactory [fmt "VP8", fmt "H264", fmt "VP9"] (some [fmt "H264", fmt "AV1X"])
        none).GetSupportedFormats stableSortBy ∧
    (sampleFactory [fmt "VP8", fmt "H264", fmt "VP9"] (some [fmt "H264", fmt "AV1X"])
        none).GetSupportedFormats std.sort
      = [fmt "VP8", fmt "VP9", fmt "H264", fmt "H264", fmt "AV1X"] :=
  ⟨stableSortBy_contract, rfl, rfl,
    (GetSupportedFormats_sorted_permutation natTypes stableSortBy
      stableSortBy_contract
      (sampleFactory [fmt "VP8", fmt "H264", fmt "VP9"] (some [fmt "H264", fmt "AV1X"]) none)
      [fmt "VP8", fmt "H264", fmt "VP9"] (some [fmt "H264", fmt "AV1X"]) rfl rfl).1,
    by decide, by decide⟩

/-! ## Backend routing -/

/-- C3 as stated fails: with `RTC_DCHECK` compiled in, no hardware backend
and a format outside the software catalog, `QueryVideoEncoder` ends in the
failed check and does not delegate to the software backend. -/
theorem QueryVideoEncoder_fallback_can_assert :
    (sampleFactory [fmt "VP8"] none none).native_encoder_factory_.isNone = true ∧
    sameNameInList (fmt "Opaque") [fmt "VP8"] = false ∧
    UnityVideoEncoderFactory.QueryVideoEncoder linuxDebug sameNameInList
        (sampleFactory [fmt "VP8"] none none) (fmt "Opaque")
      = .error .dcheck ∧
    UnityVideoEncoderFactory.QueryVideoEncoder linuxDebug sameNameInList
        (sampleFactory [fmt "VP8"] none none) (fmt "Opaque")
      ≠ .ok (.internal,
          (sampleFactory [fmt "VP8"] none none).internal_encoder_factory_.QueryVideoEncoder
            (fmt "Opaque")) := by
  refine ⟨rfl, by decide, rfl, ?_⟩
  intro h
  cases h

/-- C3 as amended: `QueryVideoEncoder` and `CreateVideoEncoder` delegate to
the hardware backend exactly when one exists and `IsCodecInList` finds the
format in its catalog; otherwise, for a format of the software catalog, both
delegate to the software backend.  For a format of neither catalog
`QueryVideoEncoder` fails its `RTC_DCHECK` where that is compiled in and
delegates to the software backend where it is not. -/
theorem encoder_calls_route_to_owning_backend (T : EncoderTypes) (b : Build)
    (IsCodecInList : SdpVideoFormat → List SdpVideoFormat → Bool)
    (f : UnityVideoEncoderFactory T) (format : SdpVideoFormat) :
    (∀ n, f.native_encoder_factory_ = some n →
      IsCodecInList format n.GetSupportedFormats = true →
        f.QueryVideoEncoder b IsCodecInList format = .ok (.native, n.QueryVideoEncoder format) ∧
        (f.CreateVideoEncoder IsCodecInList format).1 = .native) ∧
    ((∀ n, f.native_encoder_factory_ = some n →
        IsCodecInList format n.GetSupportedFormats = false) →
      IsCodecInList format f.internal_encoder_factory_.GetSupportedFormats = true →
        f.QueryVideoEncoder b IsCodecInList format
          = .ok (.internal, f.internal_encoder_factory_.QueryVideoEncoder format) ∧
        (f.CreateVideoEncoder IsCodecInList format).1 = .internal) ∧
    ((∀ n, f.native_encoder_factory_ = some n →
        IsCodecInList format n.GetSupportedFormats = false) →
      IsCodecInList format f.internal_encoder_factory_.GetSupportedFormats = false →
        (b.dcheckIsOn = true → f.QueryVideoEncoder b IsCodecInList format = .error .dcheck) ∧
        (b.dcheckIsOn = false →
          f.QueryVideoEncoder b IsCodecInList format
            = .ok (.internal, f.internal_encoder_factory_.QueryVideoEncoder format))) ∧
    ((f.CreateVideoEncoder IsCodecInList format).1 = .native ↔
      ∃ n, f.native_encoder_factory_ = some n ∧
        IsCodecInList format n.GetSupportedFormats = true) ∧
    ((∃ r, f.QueryVideoEncoder b IsCodecInList format = .ok (.native, r)) ↔
      ∃ n, f.native_encoder_factory_ = some n ∧
        IsCodecInList format n.GetSupportedFormats = true) := by
  have hnative : ∀ n, f.native_encoder_factory_ = some n →
      IsCodecInList format n.GetSupportedFormats = true →
        f.QueryVideoEncoder b IsCodecInList format = .ok (.native, n.QueryVideoEncoder format) ∧
        (f.CreateVideoEncoder IsCodecInList format).1 = .native := by
    intro n hn hin
    constructor
    · simp [UnityVideoEncoderFactory.QueryVideoEncoder, hn, hin]
    · unfold UnityVideoEncoderFactory.CreateVideoEncoder
      cases f.profiler_ <;> simp [hn, hin]
  have hcreate : (∀ n, f.native_encoder_factory_ = some n →
        IsCodecInList format n.GetSupportedFormats = false) →
      (f.CreateVideoEncoder IsCodecInList format).1 = .internal := by
    intro h
    unfold UnityVideoEncoderFactory.CreateVideoEncoder
    cases hn : f.native_encoder_factory_ with
    | none => cases f.profiler_ <;> simp
    | some n => cases f.profiler_ <;> simp [h n hn]
  have hquery : (∀ n, f.native_encoder_factory_ = some n →
        IsCodecInList format n.GetSupportedFormats = false) →
      f.QueryVideoEncoder b IsCodecInList format =
        (if b.dcheckIsOn = true ∧
            IsCodecInList format f.internal_encoder_factory_.GetSupportedFormats = false then
          .error .dcheck
        else .ok (.internal, f.internal_encoder_factory_.QueryVideoEncoder format)) := by
    intro h
    unfold UnityVideoEncoderFactory.QueryVideoEncoder
    cases hn : f.native_encoder_factory_ with
    | none => simp
    | some n => simp [h n hn]
  have hdich : (∃ n, f.native_encoder_factory_ = some n ∧
        IsCodecInList format n.GetSupportedFormats = true) ∨
      (∀ n, f.native_encoder_factory_ = some n →
        IsCodecInList format n.GetSupportedFormats = false) := by
    cases hn : f.native_encoder_factory_ with
    | none => exact Or.inr (fun n h => by cases h)
    | some n =>
      cases hin : IsCodecInList format n.GetSupportedFormats
      · refine Or.inr (fun m h => ?_)
        cases h
        exact hin
      · exact Or.inl ⟨n, rfl, hin⟩
  refine ⟨hnative, fun h hin => ⟨?_, hcreate h⟩, fun h hout => ⟨fun hb => ?_, fun hb => ?_⟩,
    ?_, ?_⟩
  · rw [hquery h, if_neg (fun hc => by rw [hin] at hc; exact Bool.noConfusion hc.2)]
  · rw [hquery h, if_pos ⟨hb, hout⟩]
  · rw [hquery h, if_neg (fun hc => by rw [hb] at hc; exact Bool.noConfusion hc.1)]
  · constructor
    · intro hc
      rcases hdich with hex | hall
      · exact hex
      · rw [hcreate hall] at hc
        cases hc
    · rintro ⟨n, hn, hin⟩
      exact (hnative n hn hin).2
  · constructor
    · rintro ⟨r, hr⟩
      rcases hdich with hex | hall
      · exact hex
      · rw [hquery hall] at hr
        split_ifs at hr
        cases hr
    · rintro ⟨n, hn, hin⟩
      exact ⟨_, (hnative n hn hin).1⟩

/-- Witness for C3 as amended: software [VP8], hardware [H264, AV1X]; AV1X is
served by the hardware backend. -/
theorem encoder_calls_route_to_owning_backend_witness :
    UnityVideoEncoderFactory.QueryVideoEncoder linuxDebug sameNameInList
        (sampleFactory [fmt "VP8"] (some [fmt "H264", fmt "AV1X"]) none) (fmt "AV1X")
      = .ok (.native, (2 : Nat)) ∧
    (UnityVideoEncoderFactory.CreateVideoEncoder sameNameInList
        (sampleFactory [fmt "VP8"] (some [fmt "H264", fmt "AV1X"]) none) (fmt "AV1X")).1
      = .native :=
  (encoder_calls_route_to_owning_backend natTypes linuxDebug sameNameInList
    (sampleFactory [fmt "VP8"] (some [fmt "H264", fmt "AV1X"]) none) (fmt "AV1X")).1
    (sampleBackend 2 [fmt "H264", fmt "AV1X"]) rfl (by decide)

/-- C5: for the format Opaque, in neither catalog, with `RTC_DCHECK`
compiled in: `QueryVideoEncoder` ends in the failed check, while
`CreateVideoEncoder` invokes the software backend and hands back what it
returned (here a null pointer), with or without a hardware backend. -/
theorem CreateVideoEncoder_has_no_fallback_assertion :
    sameNameInList (fmt "Opaque") [fmt "VP8"] = false ∧
    sameNameInList (fmt "Opaque") [fmt "H264"] = false ∧
    UnityVideoEncoderFactory.QueryVideoEncoder linuxDebug sameNameInList
        (sampleFactory [fmt "VP8"] (some [fmt "H264"]) none) (fmt "Opaque")
      = .error .dcheck ∧
    UnityVideoEncoderFactory.CreateVideoEncoder sameNameInList
        (sampleFactory [fmt "VP8"] (some [fmt "H264"]) none) (fmt "Opaque")
      = (.internal, .backend none) ∧
    UnityVideoEncoderFactory.CreateVideoEncoder sameNameInList
        (sampleFactory [fmt "VP8"] none none) (fmt "Opaque")
      = (.internal,
          .backend ((sampleFactory [fmt "VP8"] none
            none).internal_encoder_factory_.CreateVideoEncoder (fmt "Opaque"))) :=
  ⟨by decide, by decide, rfl, rfl, rfl⟩

/-! ## The instrumentation wrapper -/

/-- C10: `CreateVideoEncoder` hands back the pointer of the backend it
selected when the factory has no profiler, and a `UnityVideoEncoder` built
from that pointer and the profiler when it has one, so a wrapper made by
the factory never has a null profiler.  On a wrapper around an encoder `e`,
`InitEncode` (both overloads), `RegisterEncodeCompleteCallback`, `Release`
and `GetEncoderInfo` return what the same method of `e` returns, and leave
`e` as that one invocation leaves it; with a profiler present so does
`Encode`, which records one measurement opened and closed.  A wrapper with
a null profiler and no thread context yet would fault in `Encode`. -/
theorem UnityVideoEncoder_forwards_unchanged (T : EncoderTypes) (api : VideoEncoder T)
    (IsCodecInList : SdpVideoFormat → List SdpVideoFormat → Bool)
    (f : UnityVideoEncoderFactory T) (format : SdpVideoFormat) :
    (∀ n, f.native_encoder_factory_ = some n →
      IsCodecInList format n.GetSupportedFormats = true →
        (f.profiler_ = none →
          f.CreateVideoEncoder IsCodecInList format
            = (.native, .backend (n.CreateVideoEncoder format))) ∧
        (∀ p, f.profiler_ = some p →
          f.CreateVideoEncoder IsCodecInList format
            = (.native, .unity (UnityVideoEncoder.new (n.CreateVideoEncoder format) (some p))))) ∧
    ((∀ n, f.native_encoder_factory_ = some n →
        IsCodecInList format n.GetSupportedFormats = false) →
      (f.profiler_ = none →
        f.CreateVideoEncoder IsCodecInList format
          = (.internal, .backend (f.internal_encoder_factory_.CreateVideoEncoder format))) ∧
      (∀ p, f.profiler_ = some p →
        f.CreateVideoEncoder IsCodecInList format
          = (.internal, .unity (UnityVideoEncoder.new
              (f.internal_encoder_factory_.CreateVideoEncoder format) (some p))))) ∧
    (∀ u, (f.CreateVideoEncoder IsCodecInList format).2 = .unity u → u.profiler_.isSome = true) ∧
    (∀ (u : UnityVideoEncoder T) (e : T.Encoder), u.encoder_ = some e →
      (∀ codec_settings cores max_payload,
        u.InitEncode api codec_settings cores max_payload
          = some ((api.InitEncode e codec_settings cores max_payload).1,
              { u with encoder_ := some (api.InitEncode e codec_settings cores max_payload).2 })) ∧
      (∀ codec_settings settings,
        u.InitEncodeSettings api codec_settings settings
          = some ((api.InitEncodeSettings e codec_settings settings).1,
              { u with encoder_ := some (api.InitEncodeSettings e codec_settings settings).2 })) ∧
      (∀ callback,
        u.RegisterEncodeCompleteCallback api callback
          = some ((api.RegisterEncodeCompleteCallback e callback).1,
              { u with encoder_ := some (api.RegisterEncodeCompleteCallback e callback).2 })) ∧
      u.Release api = some ((api.Release e).1, { u with encoder_ := some (api.Release e).2 }) ∧
      u.GetEncoderInfo api = some (api.GetEncoderInfo e) ∧
      (∀ p, u.profiler_ = some p → ∀ frame frame_types,
        ∃ u1, u.Encode api frame frame_types = some ((api.Encode e frame frame_types).1, u1) ∧
          u1.encoder_ = some (api.Encode e frame frame_types).2 ∧
          u1.profiler_ = some p ∧ u1.marker_ = u.marker_ ∧
          u1.events = u.events ++ [.scopeBegin u.marker_, .scopeEnd u.marker_]) ∧
      (u.profiler_ = none → u.profilerThread_ = none → ∀ frame frame_types,
        u.Encode api frame frame_types = none)) := by
  refine ⟨?_, ?_, ?_, ?_⟩
  · intro n hn hin
    constructor
    · intro hp
      simp [UnityVideoEncoderFactory.CreateVideoEncoder, hn, hin, hp]
    · intro p hp
      simp [UnityVideoEncoderFactory.CreateVideoEncoder, hn, hin, hp]
  · intro h
    constructor
    · intro hp
      cases hn : f.native_encoder_factory_ with
      | none => simp [UnityVideoEncoderFactory.CreateVideoEncoder, hn, hp]
      | some n => simp [UnityVideoEncoderFactory.CreateVideoEncoder, hn, hp, h n hn]
    · intro p hp
      cases hn : f.native_encoder_factory_ with
      | none => simp [UnityVideoEncoderFactory.CreateVideoEncoder, hn, hp]
      | some n => simp [UnityVideoEncoderFactory.CreateVideoEncoder, hn, hp, h n hn]
  · intro u hu
    unfold UnityVideoEncoderFactory.CreateVideoEncoder at hu
    cases hp : f.profiler_ with
    | none => simp [hp] at hu
    | some p =>
      simp only [hp, CreatedEncoder.unity.injEq] at hu
      rw [← hu]
      rfl
  · intro u e he
    refine ⟨?_, ?_, ?_, ?_, ?_, ?_, ?_⟩
    · intro a b c
      simp [UnityVideoEncoder.InitEncode, he]
    · intro a b
      simp [UnityVideoEncoder.InitEncodeSettings, he]
    · intro a
      simp [UnityVideoEncoder.RegisterEncodeCompleteCallback, he]
    · simp [UnityVideoEncoder.Release, he]
    · simp [UnityVideoEncoder.GetEncoderInfo, he]
    · intro p hp frame frame_types
      unfold UnityVideoEncoder.Encode
      cases ht : u.profilerThread_ <;> simp [he, hp, ht]
    · intro hp ht frame frame_types
      simp [UnityVideoEncoder.Encode, hp, ht]

/-- Witness for C10: the factory with a profiler wraps the hardware encoder
for AV1X, and `Release` on a wrapper returns what the wrapped one returns. -/
theorem UnityVideoEncoder_forwards_unchanged_witness :
    (UnityVideoEncoderFactory.CreateVideoEncoder sameNameInList
        (sampleFactory [fmt "VP8"] (some [fmt "H264", fmt "AV1X"]) (some sampleProfiler))
        (fmt "AV1X")).1 = .native ∧
    (UnityVideoEncoder.new (some 2) (some sampleProfiler) :
        UnityVideoEncoder natTypes).encoder_ = some 2 ∧
    (UnityVideoEncoder.new (some 2) (some sampleProfiler) :
        UnityVideoEncoder natTypes).Release countingEncoder
      = some ((countingEncoder.Release 2).1,
          { (UnityVideoEncoder.new (some 2) (some sampleProfiler) : UnityVideoEncoder natTypes)
            with encoder_ := some (countingEncoder.Release 2).2 }) :=
  ⟨congrArg Prod.fst
      (((UnityVideoEncoder_forwards_unchanged natTypes countingEncoder sameNameInList
        (sampleFactory [fmt "VP8"] (some [fmt "H264", fmt "AV1X"]) (some sampleProfiler))
        (fmt "AV1X")).1 (sampleBackend 2 [fmt "H264", fmt "AV1X"]) rfl (by decide)).2
        sampleProfiler rfl),
    rfl,
    ((UnityVideoEncoder_forwards_unchanged natTypes countingEncoder sameNameInList
        (sampleFactory [fmt "VP8"] (some [fmt "H264", fmt "AV1X"]) (some sampleProfiler))
        (fmt "AV1X")).2.2.2
      (UnityVideoEncoder.new (some 2) (some sampleProfiler)) 2 rfl).2.2.2.1⟩

end unity.webrtc
